import Mathlib

/-!
Verification of the thumbnail-loading subsystem of the repository
(the three variants of the `useThumbnail` composable:
`src/apps/desktop/src/composables/useThumbnail.ts` — the Image-probe variant —
and the two fetch-based variants `src/unnamed/part_000` / `src/unnamed/part_001`).

The three variants share one code skeleton and differ only in

  * the tuning constants (`MAX_CONCURRENT`, `MAX_RETRIES`, `BASE_DELAY_MS`,
    `MAX_DELAY_MS`),
  * the probe primitive (an `Image()` element vs `fetch()` — which determines
    which settlement outcomes the try/catch of `load` can observe), and
  * whether a manual `retry()` function is exposed.

We embed the shared skeleton once, parameterised by a `Config` carrying those
differences, translating each source function into a Lean function over an
explicit state.  The asynchronous `load` function is split at its two `await`
points (the semaphore acquisition and the probe settlement) into the three
synchronous segments the event loop actually runs:

  * `loadEntry`      — from the top of `load` through `await acquireSemaphore()`,
  * `runAcq`         — the continuation resumed once the semaphore is held,
    up to the probe being issued,
  * `stepSettle`     — the continuation resumed when the probe settles
    (the whole try/catch/finally tail of `load`).

A whole-system small-step semantics (`stepA` / `run`) then interleaves any
number of consumers, pending timers, queued semaphore waiters and in-flight
probes, matching the single-threaded cooperative scheduling of the event loop:
each step is one synchronous segment run to completion.
-/

namespace Thumb

/-- Which probe primitive a variant uses: `new Image()` (useThumbnail.ts) or
`fetch()` (part_000 / part_001). -/
inductive ProbeKind where
  | image : ProbeKind
  | fetch : ProbeKind
deriving DecidableEq, Repr

/-- Per-variant constants, read off the module-level `const` declarations of
each source file, plus which probe primitive it uses and whether it exposes
`retry()`. -/
structure Config where
  probeKind : ProbeKind
  hasRetry : Bool
  maxConcurrent : Nat
  maxRetries : Nat
  baseDelayMs : Nat
  maxDelayMs : Nat
deriving DecidableEq, Repr

/-- Constants of `src/apps/desktop/src/composables/useThumbnail.ts`:
MAX_CONCURRENT = 6, MAX_RETRIES = 6, BASE_DELAY_MS = 1200, MAX_DELAY_MS = 15000,
probes via `new Image()`, exposes `retry()`. -/
def imageConfig : Config :=
  { probeKind := .image, hasRetry := true
    maxConcurrent := 6, maxRetries := 6, baseDelayMs := 1200, maxDelayMs := 15000 }

/-- Constants of `src/unnamed/part_000`: MAX_CONCURRENT = 4, MAX_RETRIES = 8,
BASE_DELAY_MS = 1500, MAX_DELAY_MS = 30000, probes via `fetch()`, no `retry()`. -/
def fetchConfig : Config :=
  { probeKind := .fetch, hasRetry := false
    maxConcurrent := 4, maxRetries := 8, baseDelayMs := 1500, maxDelayMs := 30000 }

/-- Constants of `src/unnamed/part_001`: as part_000 but exposing `retry()`. -/
def fetchRetryConfig : Config :=
  { probeKind := .fetch, hasRetry := true
    maxConcurrent := 4, maxRetries := 8, baseDelayMs := 1500, maxDelayMs := 30000 }

/-- Translation of `retryDelay(attempt)`:
`Math.min(BASE_DELAY_MS * 2 ** attempt, MAX_DELAY_MS)` (identical text in all
three variants, with the variant's constants). -/
def retryDelay (cfg : Config) (attempt : Nat) : Nat :=
  min (cfg.baseDelayMs * 2 ^ attempt) cfg.maxDelayMs

/-- Meaning of `response.ok` for a fetch `Response`: the HTTP status is in the
inclusive range 200–299. -/
def respOk (n : Nat) : Bool := 200 ≤ n && n ≤ 299

/-- Translation of `readyUrls.add(src)` / `readyThumbnails.add(src)` — adding
a string to a JS `Set` (no duplicate is created). -/
def addReady (l : List String) (u : String) : List String :=
  if u ∈ l then l else u :: l

/-- One entry of the module-level `_queue` of resume callbacks: the closure
pushed by `acquireSemaphore` resumes the `await` of one particular invocation
of `load`, so it is determined by that invocation's consumer, URL, attempt
number and captured request id. -/
structure Waiter where
  cid : Nat
  src : String
  attempt : Nat
  rid : Nat
deriving DecidableEq, Repr

/-- The module-level semaphore state: the `_active` counter and the `_queue`
of pending resume callbacks. -/
structure Sem where
  active : Nat
  queue : List Waiter
deriving DecidableEq, Repr

/-- Translation of `acquireSemaphore()`.  If `_active < MAX_CONCURRENT` the
executor increments `_active` and resolves at once (the awaiting continuation
becomes runnable, returned flag `true`); otherwise it pushes a resume callback
onto `_queue` (returned flag `false`). -/
def acquireSemaphore (cfg : Config) (s : Sem) (w : Waiter) : Sem × Bool :=
  if s.active < cfg.maxConcurrent then
    ({ s with active := s.active + 1 }, true)
  else
    ({ s with queue := s.queue ++ [w] }, false)

/-- Translation of `releaseSemaphore()`:
`_active = Math.max(0, _active - 1)` (Nat subtraction truncates at zero exactly
as Math.max(0, _) does), then `_queue.shift()`; a popped callback runs
`_active++` and resolves its waiter, which is returned for scheduling. -/
def releaseSemaphore (s : Sem) : Sem × Option Waiter :=
  match s.queue with
  | [] => ({ active := s.active - 1, queue := [] }, none)
  | w :: rest => ({ active := (s.active - 1) + 1, queue := rest }, some w)

/-- Phase of one pending continuation of `load` that holds a semaphore slot:
either the post-`acquireSemaphore` continuation has not yet run (`acquired`),
or the probe has been issued and has not yet settled (`inflight`; the flag
records whether `abort()` has been called on the probe's AbortController). -/
inductive TaskPhase where
  | acquired : TaskPhase
  | inflight : Bool → TaskPhase
deriving DecidableEq, Repr

/-- One pending slot-holding continuation of `load`, with the arguments the
closure captured and a fresh identity (needed because the consumer's
`controller` variable refers to the controller of one particular probe). -/
structure Task where
  id : Nat
  cid : Nat
  src : String
  attempt : Nat
  rid : Nat
  phase : TaskPhase
deriving DecidableEq, Repr

/-- One pending backoff timer: the `setTimeout` closure captured `src`,
`attempt + 1` (stored as `nextAttempt`) and `rid`, and was scheduled with
delay `retryDelay(attempt)`. -/
structure Timer where
  src : String
  nextAttempt : Nat
  rid : Nat
  delay : Nat
deriving DecidableEq, Repr

/-- State of one `useThumbnail` consumer instance: the three exposed refs,
the four per-instance locals (`aborted`, `requestId`, `retryTimer`,
`controller` — the latter as the id of the in-flight probe task owning the
live AbortController), the current value of the `srcRef` prop, and whether
the hosting component is still mounted (Vue stops the watcher, and the UI can
no longer call `retry()`, once the component is unmounted). -/
structure Consumer where
  srcRef : Option String
  thumbnailSrc : Option String
  loading : Bool
  failed : Bool
  aborted : Bool
  requestId : Nat
  retryTimer : Option Timer
  controller : Option Nat
  mounted : Bool
deriving DecidableEq, Repr

/-- Whole-system state: the module-level semaphore and ready cache, the
consumer instances (indexed by position of mounting), the pending
slot-holding continuations, and a fresh-id counter for them. -/
structure SysState where
  sem : Sem
  ready : List String
  consumers : List Consumer
  tasks : List Task
  nextTaskId : Nat
deriving DecidableEq, Repr

/-- The state before any consumer has mounted: counters at zero, everything
empty. -/
def initState : SysState :=
  { sem := { active := 0, queue := [] }, ready := [], consumers := [], tasks := [], nextTaskId := 0 }

/-- Look up one pending task by id. -/
def findTask (s : SysState) (tid : Nat) : Option Task :=
  s.tasks.find? (fun t => t.id == tid)

/-- Remove one pending task by id (task ids are issued freshly, so the first
match is the task). -/
def removeTask (ts : List Task) (tid : Nat) : List Task :=
  ts.eraseP (fun t => t.id == tid)

/-- Effect of `controller.abort()` on the probe the controller belongs to:
mark that in-flight task's signal as aborted. -/
def abortTaskList (ts : List Task) (tid : Nat) : List Task :=
  ts.map (fun t =>
    if t.id = tid then
      match t.phase with
      | .inflight _ => { t with phase := .inflight true }
      | .acquired => t
    else t)

/-- Update one consumer in place. -/
def setC (s : SysState) (cid : Nat) (c : Consumer) : SysState :=
  { s with consumers := s.consumers.set cid c }

/-- Append a newly acquired continuation for a waiter woken by
`releaseSemaphore`. -/
def promote (s : SysState) (w : Option Waiter) : SysState :=
  match w with
  | none => s
  | some w =>
    { s with
      tasks := s.tasks ++ [{ id := s.nextTaskId, cid := w.cid, src := w.src
                             attempt := w.attempt, rid := w.rid, phase := .acquired }]
      nextTaskId := s.nextTaskId + 1 }

/-- The full effect of one call of `releaseSemaphore()` on the system:
decrement the counter, and if a resume callback was queued, re-increment and
schedule that waiter's continuation. -/
def releaseAndPromote (s : SysState) : SysState :=
  let p := releaseSemaphore s.sem
  promote { s with sem := p.1 } p.2

/-- Effect of `controller?.abort()`: abort the referenced probe's signal when
a live controller exists, otherwise do nothing. -/
def abortCtl (ts : List Task) : Option Nat → List Task
  | some tid => abortTaskList ts tid
  | none => ts

/-- Translation of `cancelPending()` of consumer `cid`:
`aborted = true; requestId += 1; controller?.abort(); controller = null;`
then clear the backoff timer if one is pending. -/
def cancelPending (s : SysState) (cid : Nat) : SysState :=
  match s.consumers[cid]? with
  | none => s
  | some c =>
    { s with
      tasks := abortCtl s.tasks c.controller
      consumers := s.consumers.set cid
        { c with aborted := true, requestId := c.requestId + 1
                 controller := none, retryTimer := none } }

/-- Translation of the synchronous prefix of `load(src, attempt, rid)` (all
three variants have the identical text): the early return when
`aborted || rid !== requestId`; the ready-cache fast path that sets
`thumbnailSrc` and clears `loading` without probing; otherwise
`loading.value = true` followed by `await acquireSemaphore()`, which either
grants a slot at once (the continuation becomes a pending `acquired` task) or
parks the invocation in the semaphore queue. -/
def loadEntry (cfg : Config) (s : SysState) (cid : Nat) (src : String)
    (attempt rid : Nat) : SysState :=
  match s.consumers[cid]? with
  | none => s
  | some c =>
    if c.aborted ∨ rid ≠ c.requestId then s
    else if src ∈ s.ready then
      setC s cid { c with thumbnailSrc := some src, loading := false }
    else
      let c' := { c with loading := true }
      let a := acquireSemaphore cfg s.sem { cid := cid, src := src, attempt := attempt, rid := rid }
      if a.2 then
        { s with
          sem := a.1
          consumers := s.consumers.set cid c'
          tasks := s.tasks ++ [{ id := s.nextTaskId, cid := cid, src := src
                                 attempt := attempt, rid := rid, phase := .acquired }]
          nextTaskId := s.nextTaskId + 1 }
      else
        { s with sem := a.1, consumers := s.consumers.set cid c' }

/-- Translation of the continuation of `load` resumed when its
`await acquireSemaphore()` completes: re-check `aborted || rid !== requestId`
(releasing the slot and returning if stale), otherwise
`controller = new AbortController()` and issue the probe, which is then in
flight holding the slot. -/
def runAcq (s : SysState) (tid : Nat) : Option SysState :=
  match findTask s tid with
  | none => none
  | some t =>
    match t.phase with
    | .inflight _ => none
    | .acquired =>
      match s.consumers[t.cid]? with
      | none => none
      | some c =>
        if c.aborted ∨ t.rid ≠ c.requestId then
          some (releaseAndPromote { s with tasks := removeTask s.tasks tid })
        else
          some { s with
                 tasks := s.tasks.map (fun t' =>
                   if t'.id = tid then { t' with phase := .inflight false } else t')
                 consumers := s.consumers.set t.cid { c with controller := some tid } }

/-- How a probe settles, seen from the try/catch of `load`.
For the Image-probe variant: `onload` resolves (`success`), `onerror` rejects
with a plain Error (`failure`), and the abort listener rejects with a
DOMException named AbortError (`abortError`).
For the fetch variants: the fetch resolves with a `Response` carrying an HTTP
status (`status n`), rejects with a network-level TypeError (`failure`), or
rejects with an AbortError after `controller.abort()` (`abortError`). -/
inductive Outcome where
  | success : Outcome
  | failure : Outcome
  | abortError : Outcome
  | status : Nat → Outcome
deriving DecidableEq, Repr

/-- Which settlement outcomes a probe of the given variant can deliver:
`success` only for Image probes, `status` only for fetch probes, `failure`
always (an image error / network error can settle even when an abort raced
it), and `abortError` only when abort() was actually called on the probe's
controller. -/
def outcomeAllowed (cfg : Config) (sigAborted : Bool) (o : Outcome) : Bool :=
  match o with
  | .success => cfg.probeKind == .image
  | .status _ => cfg.probeKind == .fetch
  | .failure => true
  | .abortError => sigAborted

/-- Translation of the try/catch tail of `load` in the Image-probe variant
(useThumbnail.ts lines 136–166, without the `finally`).  Every settlement
path first runs `controller = null`.  On `onload`: stale check, then
`readyUrls.add(src)` and set the refs.  On AbortError: `loading.value = false`
and return.  On a plain load error: schedule the backoff timer when the
sequence is current and attempts remain, otherwise `failed = true`,
`loading = false`. -/
def settleImageBody (cfg : Config) (ready : List String) (c : Consumer)
    (t : Task) (o : Outcome) : Consumer × List String :=
  let c := { c with controller := none }
  match o with
  | .success =>
    if c.aborted ∨ t.rid ≠ c.requestId then (c, ready)
    else ({ c with thumbnailSrc := some t.src, loading := false }, addReady ready t.src)
  | .abortError => ({ c with loading := false }, ready)
  | .failure =>
    if ¬c.aborted ∧ t.rid = c.requestId ∧ t.attempt < cfg.maxRetries then
      ({ c with retryTimer := some { src := t.src, nextAttempt := t.attempt + 1
                                     rid := t.rid, delay := retryDelay cfg t.attempt } }, ready)
    else ({ c with failed := true, loading := false }, ready)
  | .status _ => (c, ready)

/-- Translation of the try/catch tail of `load` in the fetch variants
(part_000 lines 101–158 / part_001 lines 106–155, identical text, without the
`finally`).  Every settlement path first runs `controller = null`.  On a
resolved response: the stale check (`aborted || rid !== requestId`) returns
first; then the 202 branch (checked before `response.ok` because 202 is a 2xx
status) either fails out at `attempt >= MAX_RETRIES` or schedules the backoff
timer; then the `response.ok` branch adds to the ready cache and — after the
source's redundant inner re-check — sets the refs; any other status fails
immediately.  On AbortError: `loading = false`.  On a network error: retry or
fail exactly as the Image variant's error path. -/
def settleFetchBody (cfg : Config) (ready : List String) (c : Consumer)
    (t : Task) (o : Outcome) : Consumer × List String :=
  let c := { c with controller := none }
  match o with
  | .status n =>
    if c.aborted ∨ t.rid ≠ c.requestId then (c, ready)
    else if n = 202 then
      if t.attempt ≥ cfg.maxRetries then
        ({ c with failed := true, loading := false }, ready)
      else
        ({ c with retryTimer := some { src := t.src, nextAttempt := t.attempt + 1
                                       rid := t.rid, delay := retryDelay cfg t.attempt } }, ready)
    else if respOk n then
      let ready' := addReady ready t.src
      if ¬c.aborted ∧ t.rid = c.requestId then
        ({ c with thumbnailSrc := some t.src, loading := false }, ready')
      else (c, ready')
    else ({ c with failed := true, loading := false }, ready)
  | .abortError => ({ c with loading := false }, ready)
  | .failure =>
    if ¬c.aborted ∧ t.rid = c.requestId ∧ t.attempt < cfg.maxRetries then
      ({ c with retryTimer := some { src := t.src, nextAttempt := t.attempt + 1
                                     rid := t.rid, delay := retryDelay cfg t.attempt } }, ready)
    else ({ c with failed := true, loading := false }, ready)
  | .success => (c, ready)

/-- One probe settlement: the in-flight task is consumed, the variant's
try/catch body runs, and the `finally` block runs `releaseSemaphore()`
(possibly waking the oldest semaphore waiter). -/
def stepSettle (cfg : Config) (s : SysState) (tid : Nat) (o : Outcome) :
    Option SysState :=
  match findTask s tid with
  | none => none
  | some t =>
    match t.phase with
    | .acquired => none
    | .inflight sig =>
      if outcomeAllowed cfg sig o then
        match s.consumers[t.cid]? with
        | none => none
        | some c =>
          let r := match cfg.probeKind with
            | .image => settleImageBody cfg s.ready c t o
            | .fetch => settleFetchBody cfg s.ready c t o
          some (releaseAndPromote
            { s with ready := r.2
                     consumers := s.consumers.set t.cid r.1
                     tasks := removeTask s.tasks tid })
      else none

/-- Translation of a pending backoff timer firing:
`retryTimer = null; load(src, attempt + 1, rid)` — the recursive call runs its
synchronous prefix. -/
def timerFire (cfg : Config) (s : SysState) (cid : Nat) : Option SysState :=
  match s.consumers[cid]? with
  | none => none
  | some c =>
    match c.retryTimer with
    | none => none
    | some t =>
      some (loadEntry cfg (setC s cid { c with retryTimer := none }) cid t.src t.nextAttempt t.rid)

/-- Translation of the body of the `watch(srcRef, ...)` handler, run with the
new value of `srcRef`: `cancelPending()`, reset `aborted`, `thumbnailSrc`
and `failed`, then either start `load(newSrc)` (with attempt 0 and the
post-bump `requestId`) or clear `loading` when the new value is absent. -/
def watchBody (cfg : Config) (s : SysState) (cid : Nat) (v : Option String) :
    SysState :=
  let s1 := cancelPending s cid
  match s1.consumers[cid]? with
  | none => s1
  | some c =>
    let c' := { c with aborted := false, thumbnailSrc := none, failed := false, srcRef := v }
    match v with
    | some u => loadEntry cfg (setC s1 cid c') cid u 0 c'.requestId
    | none => setC s1 cid { c' with loading := false }

/-- Translation of `retry()` (useThumbnail.ts lines 191–199 / part_001 lines
186–194): read `srcRef`; if absent return; otherwise `cancelPending()`, reset
`aborted`, `thumbnailSrc` and `failed`, and start `load(src)` (attempt 0,
post-bump `requestId`). -/
def retryBody (cfg : Config) (s : SysState) (cid : Nat) : Option SysState :=
  match s.consumers[cid]? with
  | none => none
  | some c₀ =>
    match c₀.srcRef with
    | none => some s
    | some u =>
      let s1 := cancelPending s cid
      match s1.consumers[cid]? with
      | none => some s1
      | some c =>
        let c' := { c with aborted := false, thumbnailSrc := none, failed := false }
        some (loadEntry cfg (setC s1 cid c') cid u 0 c'.requestId)

/-- Mounting a new consumer with prop value `v`: the composable creates the
refs and locals at their initial values, and the `immediate: true` watch runs
its handler once with the initial `srcRef` value. -/
def mountBody (cfg : Config) (s : SysState) (v : Option String) : SysState :=
  let c0 : Consumer :=
    { srcRef := v, thumbnailSrc := none, loading := false, failed := false
      aborted := false, requestId := 0, retryTimer := none, controller := none
      mounted := true }
  watchBody cfg { s with consumers := s.consumers ++ [c0] } s.consumers.length v

/-- Translation of the `onUnmounted(() => { cancelPending() })` hook; the
component is marked unmounted, which also stops the watcher and removes the
UI's ability to call `retry()`. -/
def unmountBody (s : SysState) (cid : Nat) : SysState :=
  let s1 := cancelPending s cid
  match s1.consumers[cid]? with
  | none => s1
  | some c => setC s1 cid { c with mounted := false }

/-- The events the event loop can dispatch: mounting a consumer, the watch
firing with a new `srcRef` value, a `retry()` click, unmounting, a pending
backoff timer firing, a granted semaphore continuation running, and an
in-flight probe settling with some outcome. -/
inductive Act where
  | mount : Option String → Act
  | watch : Nat → Option String → Act
  | retry : Nat → Act
  | unmount : Nat → Act
  | timer : Nat → Act
  | runTask : Nat → Act
  | settle : Nat → Outcome → Act
deriving DecidableEq, Repr

/-- One small step of the whole system: dispatch one event if it is enabled.
watch / retry / unmount require the consumer to still be mounted (Vue stops
the watcher at unmount and the placeholder UI is gone), and retry requires
the variant to expose `retry()`. -/
def stepA (cfg : Config) (a : Act) (s : SysState) : Option SysState :=
  match a with
  | .mount v => some (mountBody cfg s v)
  | .watch cid v =>
    match s.consumers[cid]? with
    | none => none
    | some c => if c.mounted then some (watchBody cfg s cid v) else none
  | .retry cid =>
    if cfg.hasRetry then
      match s.consumers[cid]? with
      | none => none
      | some c => if c.mounted then retryBody cfg s cid else none
    else none
  | .unmount cid =>
    match s.consumers[cid]? with
    | none => none
    | some c => if c.mounted then some (unmountBody s cid) else none
  | .timer cid => timerFire cfg s cid
  | .runTask tid => runAcq s tid
  | .settle tid o => stepSettle cfg s tid o

/-- Run a list of events from a state, failing if any event is not enabled. -/
def run (cfg : Config) (acts : List Act) (s : SysState) : Option SysState :=
  match acts with
  | [] => some s
  | a :: rest =>
    match stepA cfg a s with
    | none => none
    | some s' => run cfg rest s'

/-- A state is reachable if some event sequence produces it from the empty
initial state. -/
def Reachable (cfg : Config) (s : SysState) : Prop :=
  ∃ acts, run cfg acts initState = some s

/-! ### Generic induction over event sequences -/

/-- Any property preserved by every enabled step holds at the end of every
run from a state satisfying it. -/
theorem run_induct (cfg : Config) (P : SysState → Prop)
    (hstep : ∀ a s s', stepA cfg a s = some s' → P s → P s') :
    ∀ acts s s', run cfg acts s = some s' → P s → P s' := by
  intro acts
  induction acts with
  | nil =>
    intro s s' h hp
    simp only [run] at h
    cases h
    exact hp
  | cons a rest ih =>
    intro s s' h hp
    simp only [run] at h
    cases hst : stepA cfg a s with
    | none => rw [hst] at h; cases h
    | some s1 =>
      rw [hst] at h
      exact ih s1 s' h (hstep a s s1 hst hp)

/-! ### The semaphore bound (claim C1)

The only writes to the semaphore counter in the source are inside
`acquireSemaphore` and `releaseSemaphore`; slot-holding continuations are
exactly the pending `acquired`/`inflight` tasks, and every settlement path of
`load` runs `releaseSemaphore()` in its `finally` block.  The inductive
invariant is that the counter equals the number of slot-holding
continuations and stays within the configured limit. -/

/-- Inductive invariant for the concurrency bound. -/
def SlotInv (cfg : Config) (s : SysState) : Prop :=
  s.sem.active = s.tasks.length ∧ s.tasks.length ≤ cfg.maxConcurrent

theorem slotInv_init (cfg : Config) : SlotInv cfg initState := by
  constructor <;> simp [initState]

theorem cancelPending_sem (s : SysState) (cid : Nat) :
    (cancelPending s cid).sem = s.sem := by
  unfold cancelPending
  cases s.consumers[cid]? <;> rfl

theorem abortTaskList_length (ts : List Task) (tid : Nat) :
    (abortTaskList ts tid).length = ts.length := by
  simp [abortTaskList]

theorem abortCtl_length (ts : List Task) (ctl : Option Nat) :
    (abortCtl ts ctl).length = ts.length := by
  cases ctl with
  | none => rfl
  | some tid => exact abortTaskList_length ts tid

theorem cancelPending_tasks_length (s : SysState) (cid : Nat) :
    (cancelPending s cid).tasks.length = s.tasks.length := by
  unfold cancelPending
  cases hc : s.consumers[cid]? with
  | none => rfl
  | some c => exact abortCtl_length s.tasks c.controller

theorem slotInv_loadEntry (cfg : Config) (s : SysState) (cid : Nat)
    (src : String) (attempt rid : Nat) (h : SlotInv cfg s) :
    SlotInv cfg (loadEntry cfg s cid src attempt rid) := by
  obtain ⟨h1, h2⟩ := h
  unfold loadEntry
  cases hc : s.consumers[cid]? with
  | none => exact ⟨h1, h2⟩
  | some c =>
    simp only [acquireSemaphore]
    split
    · exact ⟨h1, h2⟩
    · split
      · exact ⟨h1, h2⟩
      · split
        · rename_i hlt
          refine ⟨?_, ?_⟩ <;> simp [h1] <;> omega
        · exact ⟨h1, h2⟩

theorem setC_sem (s : SysState) (cid : Nat) (c : Consumer) :
    (setC s cid c).sem = s.sem := rfl

theorem setC_tasks (s : SysState) (cid : Nat) (c : Consumer) :
    (setC s cid c).tasks = s.tasks := rfl

theorem setC_ready (s : SysState) (cid : Nat) (c : Consumer) :
    (setC s cid c).ready = s.ready := rfl

theorem slotInv_setC (cfg : Config) (s : SysState) (cid : Nat) (c : Consumer)
    (h : SlotInv cfg s) : SlotInv cfg (setC s cid c) := h

theorem slotInv_cancelPending (cfg : Config) (s : SysState) (cid : Nat)
    (h : SlotInv cfg s) : SlotInv cfg (cancelPending s cid) := by
  obtain ⟨h1, h2⟩ := h
  constructor
  · rw [cancelPending_sem, cancelPending_tasks_length]; exact h1
  · rw [cancelPending_tasks_length]; exact h2

theorem slotInv_releaseAndPromote (cfg : Config) (s : SysState)
    (h1 : s.sem.active = s.tasks.length + 1)
    (h2 : s.tasks.length + 1 ≤ cfg.maxConcurrent) :
    SlotInv cfg (releaseAndPromote s) := by
  unfold releaseAndPromote releaseSemaphore promote
  cases hq : s.sem.queue with
  | nil => refine ⟨?_, ?_⟩ <;> simp <;> omega
  | cons w rest => refine ⟨?_, ?_⟩ <;> simp <;> omega

theorem findTask_mem (s : SysState) (tid : Nat) (t : Task)
    (h : findTask s tid = some t) : t ∈ s.tasks := by
  unfold findTask at h
  exact List.mem_of_find?_eq_some h

theorem findTask_id (s : SysState) (tid : Nat) (t : Task)
    (h : findTask s tid = some t) : t.id = tid := by
  unfold findTask at h
  have := List.find?_some h
  simpa using this

theorem removeTask_length (s : SysState) (tid : Nat) (t : Task)
    (h : findTask s tid = some t) :
    (removeTask s.tasks tid).length = s.tasks.length - 1 := by
  have hm := findTask_mem s tid t h
  have hid := findTask_id s tid t h
  unfold removeTask
  exact List.length_eraseP_of_mem hm (by simp [hid])

theorem tasks_length_pos_of_findTask (s : SysState) (tid : Nat) (t : Task)
    (h : findTask s tid = some t) : 1 ≤ s.tasks.length :=
  List.length_pos_of_mem (findTask_mem s tid t h)

theorem slotInv_runAcq (cfg : Config) (s s' : SysState) (tid : Nat)
    (h : runAcq s tid = some s') (hi : SlotInv cfg s) : SlotInv cfg s' := by
  obtain ⟨h1, h2⟩ := hi
  unfold runAcq at h
  split at h
  · cases h
  · rename_i t hf
    split at h
    · cases h
    · split at h
      · cases h
      · rename_i c hc
        have hpos := tasks_length_pos_of_findTask s tid t hf
        split at h
        · cases h
          apply slotInv_releaseAndPromote cfg
          · simp only
            rw [removeTask_length s tid t hf]
            omega
          · rw [removeTask_length s tid t hf]
            omega
        · cases h
          refine ⟨?_, ?_⟩ <;> simp <;> omega

theorem slotInv_stepSettle (cfg : Config) (s s' : SysState) (tid : Nat)
    (o : Outcome) (h : stepSettle cfg s tid o = some s') (hi : SlotInv cfg s) :
    SlotInv cfg s' := by
  obtain ⟨h1, h2⟩ := hi
  unfold stepSettle at h
  split at h
  · cases h
  · rename_i t hf
    split at h
    · cases h
    · split at h
      · split at h
        · cases h
        · rename_i c hc
          cases h
          have hpos := tasks_length_pos_of_findTask s tid t hf
          apply slotInv_releaseAndPromote cfg
          · simp only
            rw [removeTask_length s tid t hf]
            omega
          · rw [removeTask_length s tid t hf]
            omega
      · cases h

theorem slotInv_timerFire (cfg : Config) (s s' : SysState) (cid : Nat)
    (h : timerFire cfg s cid = some s') (hi : SlotInv cfg s) : SlotInv cfg s' := by
  unfold timerFire at h
  split at h
  · cases h
  · rename_i c hc
    split at h
    · cases h
    · rename_i t ht
      cases h
      exact slotInv_loadEntry cfg _ _ _ _ _ (slotInv_setC cfg s cid _ hi)

theorem slotInv_watchBody (cfg : Config) (s : SysState) (cid : Nat)
    (v : Option String) (h : SlotInv cfg s) :
    SlotInv cfg (watchBody cfg s cid v) := by
  have hs1 := slotInv_cancelPending cfg s cid h
  unfold watchBody
  dsimp only
  split
  · exact hs1
  · rename_i c hc
    split
    · exact slotInv_loadEntry cfg _ _ _ _ _ (slotInv_setC cfg _ cid _ hs1)
    · exact slotInv_setC cfg _ cid _ hs1

theorem slotInv_retryBody (cfg : Config) (s s' : SysState) (cid : Nat)
    (h : retryBody cfg s cid = some s') (hi : SlotInv cfg s) : SlotInv cfg s' := by
  unfold retryBody at h
  split at h
  · cases h
  · rename_i c0 hc0
    split at h
    · cases h; exact hi
    · rename_i u
      have hs1 := slotInv_cancelPending cfg s cid hi
      dsimp only at h
      split at h
      · cases h; exact hs1
      · rename_i c hc
        cases h
        exact slotInv_loadEntry cfg _ _ _ _ _ (slotInv_setC cfg _ cid _ hs1)

theorem slotInv_mountBody (cfg : Config) (s : SysState) (v : Option String)
    (h : SlotInv cfg s) : SlotInv cfg (mountBody cfg s v) := by
  unfold mountBody
  exact slotInv_watchBody cfg _ _ v h

theorem slotInv_unmountBody (cfg : Config) (s : SysState) (cid : Nat)
    (h : SlotInv cfg s) : SlotInv cfg (unmountBody s cid) := by
  have hs1 := slotInv_cancelPending cfg s cid h
  unfold unmountBody
  dsimp only
  split
  · exact hs1
  · exact slotInv_setC cfg _ cid _ hs1

theorem slotInv_step (cfg : Config) (a : Act) (s s' : SysState)
    (h : stepA cfg a s = some s') (hi : SlotInv cfg s) : SlotInv cfg s' := by
  cases a with
  | mount v =>
    simp only [stepA] at h
    cases h
    exact slotInv_mountBody cfg s v hi
  | watch cid v =>
    simp only [stepA] at h
    split at h
    · cases h
    · split at h
      · cases h
        exact slotInv_watchBody cfg s cid v hi
      · cases h
  | retry cid =>
    simp only [stepA] at h
    split at h
    · split at h
      · cases h
      · split at h
        · exact slotInv_retryBody cfg s s' cid h hi
        · cases h
    · cases h
  | unmount cid =>
    simp only [stepA] at h
    split at h
    · cases h
    · split at h
      · cases h
        exact slotInv_unmountBody cfg s cid hi
      · cases h
  | timer cid => exact slotInv_timerFire cfg s s' cid h hi
  | runTask tid => exact slotInv_runAcq cfg s s' tid h hi
  | settle tid o => exact slotInv_stepSettle cfg s s' tid o h hi

theorem slotInv_reachable (cfg : Config) (s : SysState) (h : Reachable cfg s) :
    SlotInv cfg s := by
  obtain ⟨acts, hrun⟩ := h
  exact run_induct cfg (SlotInv cfg) (slotInv_step cfg) acts initState s hrun
    (slotInv_init cfg)

/-- Number of probes actually in flight. -/
def inflightCount (s : SysState) : Nat :=
  (s.tasks.filter (fun t =>
    match t.phase with
    | .inflight _ => true
    | .acquired => false)).length

/-- C1: for every configured concurrency limit N (MAX_CONCURRENT = 6 in the
Image-probe variant, 4 in the fetch variants), for any number of
simultaneously mounted useThumbnail consumers and any interleaving of their
load sequences, the semaphore's active count never exceeds N, and at no
point are more than N probes in flight: acquireSemaphore increments the
counter only when it is below N and otherwise enqueues a resume callback,
and every acquired slot is released exactly once (the counter always equals
the number of slot-holding continuations). -/
theorem c1_concurrency_bound :
    imageConfig.maxConcurrent = 6 ∧ fetchConfig.maxConcurrent = 4 ∧
    fetchRetryConfig.maxConcurrent = 4 ∧
    ∀ (cfg : Config) (s : SysState), Reachable cfg s →
      s.sem.active ≤ cfg.maxConcurrent ∧ inflightCount s ≤ s.sem.active := by
  refine ⟨rfl, rfl, rfl, ?_⟩
  intro cfg s h
  obtain ⟨h1, h2⟩ := slotInv_reachable cfg s h
  refine ⟨by omega, ?_⟩
  rw [h1]
  exact List.length_filter_le _ _

/-- Witness for c1_concurrency_bound at a concrete reachable state. -/
theorem c1_concurrency_bound_witness :
    Reachable imageConfig initState ∧
    initState.sem.active ≤ imageConfig.maxConcurrent ∧
    inflightCount initState ≤ initState.sem.active := by
  have hreach : Reachable imageConfig initState := ⟨[], rfl⟩
  exact ⟨hreach, c1_concurrency_bound.2.2.2 imageConfig initState hreach⟩

/-! ### The ready-cache invariant (claims C10, C3)

thumbnailSrc is assigned a URL only on the cache-hit fast path of `load`
(guarded by cache membership) and in the success branch right after the URL
is added to the cache; every other assignment resets it to null, and the
cache only ever grows (`.add` is the only operation ever applied to it). -/

/-- Inductive invariant: a non-null thumbnailSrc is always a member of the
module-level ready cache. -/
abbrev ThumbInv (s : SysState) : Prop :=
  ∀ (cid : Nat) (c : Consumer), s.consumers[cid]? = some c →
    ∀ u : String, c.thumbnailSrc = some u → u ∈ s.ready

theorem thumbInv_init : ThumbInv initState := by
  intro cid c hc
  simp [initState] at hc

theorem mem_addReady_self (l : List String) (u : String) : u ∈ addReady l u := by
  unfold addReady
  split
  · assumption
  · exact List.mem_cons_self u l

theorem mem_addReady_of_mem (l : List String) (v u : String) (h : u ∈ l) :
    u ∈ addReady l v := by
  unfold addReady
  split
  · exact h
  · exact List.mem_cons_of_mem v h

theorem thumbInv_congr (s s' : SysState) (hc : s'.consumers = s.consumers)
    (hr : s'.ready = s.ready) (hi : ThumbInv s) : ThumbInv s' := by
  intro j cj hj u hu
  rw [hc] at hj
  rw [hr]
  exact hi j cj hj u hu

theorem releaseAndPromote_consumers (s : SysState) :
    (releaseAndPromote s).consumers = s.consumers := by
  unfold releaseAndPromote releaseSemaphore promote
  cases s.sem.queue <;> rfl

theorem releaseAndPromote_ready (s : SysState) :
    (releaseAndPromote s).ready = s.ready := by
  unfold releaseAndPromote releaseSemaphore promote
  cases s.sem.queue <;> rfl

/-- Core step for the invariant: a state built by updating one consumer
(and arbitrary semaphore/task bookkeeping) stays safe provided the ready set
only grew and the new consumer value is itself safe. -/
theorem thumbInv_of_set (s : SysState) (ready' : List String) (cid : Nat)
    (c' : Consumer) (sem' : Sem) (tasks' : List Task) (nid : Nat)
    (hmono : ∀ u ∈ s.ready, u ∈ ready') (hi : ThumbInv s)
    (hc : ∀ u, c'.thumbnailSrc = some u → u ∈ ready') :
    ThumbInv { sem := sem', ready := ready'
               consumers := s.consumers.set cid c', tasks := tasks', nextTaskId := nid } := by
  intro j cj hj u hu
  simp only at hj
  rw [List.getElem?_set] at hj
  split at hj
  · split at hj
    · cases hj; exact hc u hu
    · cases hj
  · exact hmono u (hi j cj hj u hu)

theorem thumbInv_cancelPending (s : SysState) (cid : Nat) (hi : ThumbInv s) :
    ThumbInv (cancelPending s cid) := by
  unfold cancelPending
  split
  · exact hi
  · rename_i c hc
    exact thumbInv_of_set s s.ready cid _ _ _ _ (fun u hu => hu) hi
      (fun u hu => hi cid c hc u hu)

theorem thumbInv_loadEntry (cfg : Config) (s : SysState) (cid : Nat)
    (src : String) (attempt rid : Nat) (hi : ThumbInv s) :
    ThumbInv (loadEntry cfg s cid src attempt rid) := by
  unfold loadEntry
  split
  · exact hi
  · rename_i c hc
    split
    · exact hi
    · split
      · rename_i hmem
        refine thumbInv_of_set s s.ready cid _ _ _ _ (fun u hu => hu) hi ?_
        intro u hu
        simp only at hu
        cases hu
        exact hmem
      · simp only [acquireSemaphore]
        split
        · exact thumbInv_of_set s s.ready cid _ _ _ _ (fun u hu => hu) hi
            (fun u hu => hi cid c hc u hu)
        · exact thumbInv_of_set s s.ready cid _ _ _ _ (fun u hu => hu) hi
            (fun u hu => hi cid c hc u hu)

theorem thumbInv_runAcq (s s' : SysState) (tid : Nat)
    (h : runAcq s tid = some s') (hi : ThumbInv s) : ThumbInv s' := by
  unfold runAcq at h
  split at h
  · cases h
  · rename_i t hf
    split at h
    · cases h
    · split at h
      · cases h
      · rename_i c hc
        split at h
        · cases h
          refine thumbInv_congr _ _ (releaseAndPromote_consumers _) (releaseAndPromote_ready _) ?_
          exact hi
        · cases h
          exact thumbInv_of_set s s.ready t.cid _ _ _ _ (fun u hu => hu) hi
            (fun u hu => hi t.cid c hc u hu)

theorem settleImageBody_mono (cfg : Config) (ready : List String) (c : Consumer)
    (t : Task) (o : Outcome) :
    ∀ u ∈ ready, u ∈ (settleImageBody cfg ready c t o).2 := by
  intro u hu
  unfold settleImageBody
  cases o with
  | success =>
    dsimp only
    split
    · exact hu
    · exact mem_addReady_of_mem _ _ _ hu
  | failure =>
    dsimp only
    split
    · exact hu
    · exact hu
  | abortError => exact hu
  | status n => exact hu

theorem settleFetchBody_mono (cfg : Config) (ready : List String) (c : Consumer)
    (t : Task) (o : Outcome) :
    ∀ u ∈ ready, u ∈ (settleFetchBody cfg ready c t o).2 := by
  intro u hu
  unfold settleFetchBody
  cases o with
  | success => exact hu
  | abortError => exact hu
  | failure =>
    dsimp only
    split
    · exact hu
    · exact hu
  | status n =>
    dsimp only
    split
    · exact hu
    · split
      · split
        · exact hu
        · exact hu
      · split
        · split
          · exact mem_addReady_of_mem _ _ _ hu
          · exact mem_addReady_of_mem _ _ _ hu
        · exact hu

theorem settleImageBody_safe (cfg : Config) (ready : List String) (c : Consumer)
    (t : Task) (o : Outcome)
    (hc : ∀ u, c.thumbnailSrc = some u → u ∈ ready) :
    ∀ u, (settleImageBody cfg ready c t o).1.thumbnailSrc = some u →
      u ∈ (settleImageBody cfg ready c t o).2 := by
  unfold settleImageBody
  cases o with
  | success =>
    dsimp only
    split
    · exact fun u hu => hc u hu
    · intro u hu
      dsimp only at hu
      cases hu
      exact mem_addReady_self _ _
  | failure =>
    dsimp only
    split
    · exact fun u hu => hc u hu
    · exact fun u hu => hc u hu
  | abortError => exact fun u hu => hc u hu
  | status n => exact fun u hu => hc u hu

theorem settleFetchBody_safe (cfg : Config) (ready : List String) (c : Consumer)
    (t : Task) (o : Outcome)
    (hc : ∀ u, c.thumbnailSrc = some u → u ∈ ready) :
    ∀ u, (settleFetchBody cfg ready c t o).1.thumbnailSrc = some u →
      u ∈ (settleFetchBody cfg ready c t o).2 := by
  unfold settleFetchBody
  cases o with
  | success => exact fun u hu => hc u hu
  | abortError => exact fun u hu => hc u hu
  | failure =>
    dsimp only
    split
    · exact fun u hu => hc u hu
    · exact fun u hu => hc u hu
  | status n =>
    dsimp only
    split
    · exact fun u hu => hc u hu
    · split
      · split
        · exact fun u hu => hc u hu
        · exact fun u hu => hc u hu
      · split
        · split
          · intro u hu
            dsimp only at hu
            cases hu
            exact mem_addReady_self _ _
          · exact fun u hu => mem_addReady_of_mem _ _ _ (hc u hu)
        · exact fun u hu => hc u hu

theorem thumbInv_stepSettle (cfg : Config) (s s' : SysState) (tid : Nat)
    (o : Outcome) (h : stepSettle cfg s tid o = some s') (hi : ThumbInv s) :
    ThumbInv s' := by
  unfold stepSettle at h
  split at h
  · cases h
  · rename_i t hf
    split at h
    · cases h
    · split at h
      · split at h
        · cases h
        · rename_i c hc
          cases h
          refine thumbInv_congr _ _ (releaseAndPromote_consumers _) (releaseAndPromote_ready _) ?_
          cases hk : cfg.probeKind with
          | image =>
            exact thumbInv_of_set s _ t.cid _ _ _ _
              (settleImageBody_mono cfg s.ready c t o) hi
              (settleImageBody_safe cfg s.ready c t o (fun u hu => hi t.cid c hc u hu))
          | fetch =>
            exact thumbInv_of_set s _ t.cid _ _ _ _
              (settleFetchBody_mono cfg s.ready c t o) hi
              (settleFetchBody_safe cfg s.ready c t o (fun u hu => hi t.cid c hc u hu))
      · cases h

theorem thumbInv_timerFire (cfg : Config) (s s' : SysState) (cid : Nat)
    (h : timerFire cfg s cid = some s') (hi : ThumbInv s) : ThumbInv s' := by
  unfold timerFire at h
  split at h
  · cases h
  · rename_i c hc
    split at h
    · cases h
    · rename_i t ht
      cases h
      refine thumbInv_loadEntry cfg _ cid t.src t.nextAttempt t.rid ?_
      exact thumbInv_of_set s s.ready cid _ _ _ _ (fun u hu => hu) hi
        (fun u hu => hi cid c hc u hu)

theorem thumbInv_watchBody (cfg : Config) (s : SysState) (cid : Nat)
    (v : Option String) (hi : ThumbInv s) : ThumbInv (watchBody cfg s cid v) := by
  have hs1 := thumbInv_cancelPending s cid hi
  unfold watchBody
  dsimp only
  split
  · exact hs1
  · rename_i c hc
    split
    · refine thumbInv_loadEntry cfg _ cid _ 0 _ ?_
      exact thumbInv_of_set (cancelPending s cid) (cancelPending s cid).ready cid _ _ _ _
        (fun u hu => hu) hs1 (fun u hu => by cases hu)
    · exact thumbInv_of_set (cancelPending s cid) (cancelPending s cid).ready cid _ _ _ _
        (fun u hu => hu) hs1 (fun u hu => by cases hu)

theorem thumbInv_retryBody (cfg : Config) (s s' : SysState) (cid : Nat)
    (h : retryBody cfg s cid = some s') (hi : ThumbInv s) : ThumbInv s' := by
  unfold retryBody at h
  split at h
  · cases h
  · rename_i c0 hc0
    split at h
    · cases h; exact hi
    · rename_i u
      have hs1 := thumbInv_cancelPending s cid hi
      dsimp only at h
      split at h
      · cases h; exact hs1
      · rename_i c hc
        cases h
        refine thumbInv_loadEntry cfg _ cid _ 0 _ ?_
        exact thumbInv_of_set (cancelPending s cid) (cancelPending s cid).ready cid _ _ _ _
          (fun u hu => hu) hs1 (fun u hu => by cases hu)

theorem thumbInv_append (s : SysState) (c0 : Consumer) (hc : c0.thumbnailSrc = none) (hi : ThumbInv s) :
    ThumbInv { s with consumers := s.consumers ++ [c0] } := by
  intro j cj hj u hu
  simp only at hj
  rw [List.getElem?_append] at hj
  split at hj
  · exact hi j cj hj u hu
  · cases hk : j - s.consumers.length with
    | zero =>
      rw [hk] at hj
      simp only [List.getElem?_cons_zero] at hj
      cases hj
      rw [hc] at hu
      cases hu
    | succ k =>
      rw [hk] at hj
      simp at hj

theorem thumbInv_mountBody (cfg : Config) (s : SysState) (v : Option String)
    (hi : ThumbInv s) : ThumbInv (mountBody cfg s v) := by
  unfold mountBody
  exact thumbInv_watchBody cfg _ _ v (thumbInv_append s _ rfl hi)

theorem thumbInv_unmountBody (s : SysState) (cid : Nat) (hi : ThumbInv s) :
    ThumbInv (unmountBody s cid) := by
  have hs1 := thumbInv_cancelPending s cid hi
  unfold unmountBody
  dsimp only
  split
  · exact hs1
  · rename_i c hc
    exact thumbInv_of_set (cancelPending s cid) (cancelPending s cid).ready cid _ _ _ _
      (fun u hu => hu) hs1 (fun u hu => hs1 cid c hc u hu)

theorem thumbInv_step (cfg : Config) (a : Act) (s s' : SysState)
    (h : stepA cfg a s = some s') (hi : ThumbInv s) : ThumbInv s' := by
  cases a with
  | mount v =>
    simp only [stepA] at h
    cases h
    exact thumbInv_mountBody cfg s v hi
  | watch cid v =>
    simp only [stepA] at h
    split at h
    · cases h
    · split at h
      · cases h
        exact thumbInv_watchBody cfg s cid v hi
      · cases h
  | retry cid =>
    simp only [stepA] at h
    split at h
    · split at h
      · cases h
      · split at h
        · exact thumbInv_retryBody cfg s s' cid h hi
        · cases h
    · cases h
  | unmount cid =>
    simp only [stepA] at h
    split at h
    · cases h
    · split at h
      · cases h
        exact thumbInv_unmountBody s cid hi
      · cases h
  | timer cid => exact thumbInv_timerFire cfg s s' cid h hi
  | runTask tid => exact thumbInv_runAcq s s' tid h hi
  | settle tid o => exact thumbInv_stepSettle cfg s s' tid o h hi

theorem thumbInv_reachable (cfg : Config) (s : SysState) (h : Reachable cfg s) :
    ThumbInv s := by
  obtain ⟨acts, hrun⟩ := h
  exact run_induct cfg ThumbInv (thumbInv_step cfg) acts initState s hrun thumbInv_init

theorem cancelPending_ready (s : SysState) (cid : Nat) :
    (cancelPending s cid).ready = s.ready := by
  unfold cancelPending
  split <;> rfl

theorem loadEntry_ready (cfg : Config) (s : SysState) (cid : Nat)
    (src : String) (attempt rid : Nat) :
    (loadEntry cfg s cid src attempt rid).ready = s.ready := by
  unfold loadEntry
  split
  · rfl
  · split
    · rfl
    · split
      · rfl
      · simp only [acquireSemaphore]
        split
        · rfl
        · rfl

theorem watchBody_ready (cfg : Config) (s : SysState) (cid : Nat)
    (v : Option String) : (watchBody cfg s cid v).ready = s.ready := by
  unfold watchBody
  dsimp only
  split
  · exact cancelPending_ready s cid
  · split
    · rw [loadEntry_ready, setC_ready, cancelPending_ready]
    · rw [setC_ready, cancelPending_ready]

theorem retryBody_ready (cfg : Config) (s s' : SysState) (cid : Nat)
    (h : retryBody cfg s cid = some s') : s'.ready = s.ready := by
  unfold retryBody at h
  split at h
  · cases h
  · split at h
    · cases h; rfl
    · dsimp only at h
      split at h
      · cases h; exact cancelPending_ready s cid
      · cases h
        rw [loadEntry_ready, setC_ready, cancelPending_ready]

theorem timerFire_ready (cfg : Config) (s s' : SysState) (cid : Nat)
    (h : timerFire cfg s cid = some s') : s'.ready = s.ready := by
  unfold timerFire at h
  split at h
  · cases h
  · split at h
    · cases h
    · cases h
      rw [loadEntry_ready, setC_ready]

theorem runAcq_ready (s s' : SysState) (tid : Nat) (h : runAcq s tid = some s') :
    s'.ready = s.ready := by
  unfold runAcq at h
  split at h
  · cases h
  · split at h
    · cases h
    · split at h
      · cases h
      · split at h
        · cases h; exact releaseAndPromote_ready _
        · cases h; rfl

theorem stepSettle_ready_mono (cfg : Config) (s s' : SysState) (tid : Nat)
    (o : Outcome) (h : stepSettle cfg s tid o = some s') :
    ∀ u ∈ s.ready, u ∈ s'.ready := by
  unfold stepSettle at h
  split at h
  · cases h
  · rename_i t hf
    split at h
    · cases h
    · split at h
      · split at h
        · cases h
        · rename_i c hc
          cases h
          intro u hu
          rw [releaseAndPromote_ready]
          cases hk : cfg.probeKind with
          | image => exact settleImageBody_mono cfg s.ready c t o u hu
          | fetch => exact settleFetchBody_mono cfg s.ready c t o u hu
      · cases h

theorem mountBody_ready (cfg : Config) (s : SysState) (v : Option String) :
    (mountBody cfg s v).ready = s.ready := by
  unfold mountBody
  rw [watchBody_ready]

theorem unmountBody_ready (s : SysState) (cid : Nat) :
    (unmountBody s cid).ready = s.ready := by
  unfold unmountBody
  dsimp only
  split
  · exact cancelPending_ready s cid
  · rw [setC_ready, cancelPending_ready]

theorem step_ready_mono (cfg : Config) (a : Act) (s s' : SysState)
    (h : stepA cfg a s = some s') : ∀ u ∈ s.ready, u ∈ s'.ready := by
  cases a with
  | mount v =>
    simp only [stepA] at h
    cases h
    rw [mountBody_ready]
    exact fun u hu => hu
  | watch cid v =>
    simp only [stepA] at h
    split at h
    · cases h
    · split at h
      · cases h
        rw [watchBody_ready]
        exact fun u hu => hu
      · cases h
  | retry cid =>
    simp only [stepA] at h
    split at h
    · split at h
      · cases h
      · split at h
        · rw [retryBody_ready cfg s s' cid h]
          exact fun u hu => hu
        · cases h
    · cases h
  | unmount cid =>
    simp only [stepA] at h
    split at h
    · cases h
    · split at h
      · cases h
        rw [unmountBody_ready]
        exact fun u hu => hu
      · cases h
  | timer cid =>
    rw [timerFire_ready cfg s s' cid h]
    exact fun u hu => hu
  | runTask tid =>
    rw [runAcq_ready s s' tid h]
    exact fun u hu => hu
  | settle tid o => exact stepSettle_ready_mono cfg s s' tid o h

/-- C10: in every reachable state of every variant, whenever thumbnailSrc is
non-null its value is a member of the module-level ready cache —
thumbnailSrc is assigned a URL only in the cache-hit branch (guarded by
membership) or in the success branch immediately after the URL is added to
the cache, every other mutation resets it to null, and the cache is
append-only (every step only grows it), so the invariant is preserved by
every operation of every variant. -/
theorem c10_thumbnailSrc_always_cached :
    (∀ (cfg : Config) (s : SysState), Reachable cfg s →
      ∀ (cid : Nat) (c : Consumer), s.consumers[cid]? = some c →
        ∀ u : String, c.thumbnailSrc = some u → u ∈ s.ready) ∧
    (∀ (cfg : Config) (a : Act) (s s' : SysState), stepA cfg a s = some s' →
      ∀ u ∈ s.ready, u ∈ s'.ready) := by
  constructor
  · intro cfg s h
    exact thumbInv_reachable cfg s h
  · exact step_ready_mono

/-- Witness for c10_thumbnailSrc_always_cached: a concrete reachable state
with a non-null thumbnailSrc, and a concrete step that keeps the cache. -/
theorem c10_thumbnailSrc_always_cached_witness :
    ∃ s : SysState, Reachable fetchRetryConfig s ∧
      (∃ c : Consumer, s.consumers[0]? = some c ∧ c.thumbnailSrc = some "u" ∧ "u" ∈ s.ready) := by
  refine ⟨_, ⟨[.mount (some "u"), .runTask 0, .settle 0 (.status 200)], rfl⟩, _, rfl, rfl, ?_⟩
  exact c10_thumbnailSrc_always_cached.1 fetchRetryConfig _
    ⟨[.mount (some "u"), .runTask 0, .settle 0 (.status 200)], rfl⟩ 0 _ rfl "u" rfl

/-! ### The backoff delay formula (claim C4) -/

/-- C4: for every attempt number k, the backoff delay scheduled before the
next automatic retry equals min(BASE_DELAY_MS * 2^k, MAX_DELAY_MS) — base
1200 ms and cap 15000 ms in the Image-probe variant; base 1500 ms and cap
30000 ms in the fetch variants — the delay sequence is non-decreasing in k,
and every settlement either leaves the pending timer alone or schedules the
next attempt with exactly that delay. -/
theorem c4_backoff_delay :
    (∀ k : Nat, retryDelay imageConfig k = min (1200 * 2 ^ k) 15000) ∧
    (∀ k : Nat, retryDelay fetchConfig k = min (1500 * 2 ^ k) 30000) ∧
    (∀ k : Nat, retryDelay fetchRetryConfig k = min (1500 * 2 ^ k) 30000) ∧
    (∀ (cfg : Config) (k m : Nat), k ≤ m → retryDelay cfg k ≤ retryDelay cfg m) ∧
    (∀ (cfg : Config) (ready : List String) (c : Consumer) (t : Task) (o : Outcome),
      (settleImageBody cfg ready c t o).1.retryTimer = c.retryTimer ∨
      (settleImageBody cfg ready c t o).1.retryTimer =
        some { src := t.src, nextAttempt := t.attempt + 1, rid := t.rid
               delay := retryDelay cfg t.attempt }) ∧
    (∀ (cfg : Config) (ready : List String) (c : Consumer) (t : Task) (o : Outcome),
      (settleFetchBody cfg ready c t o).1.retryTimer = c.retryTimer ∨
      (settleFetchBody cfg ready c t o).1.retryTimer =
        some { src := t.src, nextAttempt := t.attempt + 1, rid := t.rid
               delay := retryDelay cfg t.attempt }) := by
  refine ⟨fun k => rfl, fun k => rfl, fun k => rfl, ?_, ?_, ?_⟩
  · intro cfg k m h
    unfold retryDelay
    exact min_le_min (Nat.mul_le_mul le_rfl (Nat.pow_le_pow_right (by norm_num) h)) le_rfl
  · intro cfg ready c t o
    unfold settleImageBody
    cases o with
    | success =>
      dsimp only
      split
      · exact Or.inl rfl
      · exact Or.inl rfl
    | failure =>
      dsimp only
      split
      · exact Or.inr rfl
      · exact Or.inl rfl
    | abortError => exact Or.inl rfl
    | status n => exact Or.inl rfl
  · intro cfg ready c t o
    unfold settleFetchBody
    cases o with
    | success => exact Or.inl rfl
    | abortError => exact Or.inl rfl
    | failure =>
      dsimp only
      split
      · exact Or.inr rfl
      · exact Or.inl rfl
    | status n =>
      dsimp only
      split
      · exact Or.inl rfl
      · split
        · split
          · exact Or.inl rfl
          · exact Or.inr rfl
        · split
          · split
            · exact Or.inl rfl
            · exact Or.inl rfl
          · exact Or.inl rfl

/-- Witness for c4_backoff_delay at concrete attempt numbers: attempt 3 of
the Image variant is 9600 ms, attempt 4 is capped at 15000 ms, and the
sequence is non-decreasing between attempts 2 and 5. -/
theorem c4_backoff_delay_witness :
    retryDelay imageConfig 3 = min (1200 * 2 ^ 3) 15000 ∧
    retryDelay fetchConfig 5 = min (1500 * 2 ^ 5) 30000 ∧
    (2 : Nat) ≤ 5 ∧ retryDelay imageConfig 2 ≤ retryDelay imageConfig 5 := by
  refine ⟨c4_backoff_delay.1 3, c4_backoff_delay.2.1 5, by decide, ?_⟩
  exact c4_backoff_delay.2.2.2.1 imageConfig 2 5 (by decide)

theorem loadEntry_cache_hit (cfg : Config) (s : SysState) (cid : Nat)
    (c : Consumer) (src : String) (attempt rid : Nat)
    (hc : s.consumers[cid]? = some c) (hab : c.aborted = false)
    (hrid : rid = c.requestId) (hmem : src ∈ s.ready) :
    loadEntry cfg s cid src attempt rid =
      setC s cid { c with thumbnailSrc := some src, loading := false } := by
  unfold loadEntry
  simp only [hc]
  rw [if_neg (by simp [hab, hrid]), if_pos hmem]

theorem getElem?_lt_length {α : Type} (l : List α) (n : Nat) (a : α)
    (h : l[n]? = some a) : n < l.length := by
  by_contra hn
  rw [List.getElem?_eq_none (by omega)] at h
  cases h

theorem cancelPending_consumers_length (s : SysState) (cid : Nat) :
    (cancelPending s cid).consumers.length = s.consumers.length := by
  unfold cancelPending
  split
  · rfl
  · simp

theorem watchBody_cache_hit (cfg : Config) (s : SysState) (cid : Nat)
    (c : Consumer) (u : String)
    (hc : s.consumers[cid]? = some c) (hmem : u ∈ s.ready) :
    (watchBody cfg s cid (some u)).sem = s.sem ∧
    (watchBody cfg s cid (some u)).tasks = (cancelPending s cid).tasks ∧
    (watchBody cfg s cid (some u)).ready = s.ready ∧
    (watchBody cfg s cid (some u)).consumers[cid]? =
      some { srcRef := some u, thumbnailSrc := some u, loading := false
             failed := false, aborted := false, requestId := c.requestId + 1
             retryTimer := none, controller := none, mounted := c.mounted } := by
  have hlen : cid < s.consumers.length := getElem?_lt_length _ _ _ hc
  have hcp : (cancelPending s cid).consumers[cid]? =
      some { c with aborted := true, requestId := c.requestId + 1
                    controller := none, retryTimer := none } := by
    unfold cancelPending
    simp only [hc]
    exact List.getElem?_set_self (by simpa using hlen)
  unfold watchBody
  dsimp only
  rw [hcp]
  dsimp only
  rw [loadEntry_cache_hit cfg _ cid _ u 0 (c.requestId + 1)
    (by simp only [setC]
        exact List.getElem?_set_self (by simp [cancelPending_consumers_length]; omega))
    rfl rfl (by rw [setC_ready, cancelPending_ready]; exact hmem)]
  refine ⟨?_, ?_, ?_, ?_⟩
  · rw [setC_sem, setC_sem, cancelPending_sem]
  · rw [setC_tasks, setC_tasks]
  · rw [setC_ready, setC_ready, cancelPending_ready]
  · simp only [setC]
    rw [List.getElem?_set_self (by simp [cancelPending_consumers_length]; omega)]

/-- C3: for every URL already in the ready cache, every load sequence started
afterwards that targets it — every sequence start and timer re-entry runs the
same synchronous prefix of load, and the watch handler (which also runs on a
remount of a recycled virtualized-list consumer) goes through it too — sets
thumbnailSrc directly from the cache with loading false and issues no probe:
the whole step leaves the semaphore, the task set and the cache untouched. -/
theorem c3_no_reprobe_after_ready :
    (∀ (cfg : Config) (s : SysState) (cid : Nat) (c : Consumer) (src : String)
        (attempt rid : Nat),
      s.consumers[cid]? = some c → c.aborted = false → rid = c.requestId →
      src ∈ s.ready →
      loadEntry cfg s cid src attempt rid =
        setC s cid { c with thumbnailSrc := some src, loading := false }) ∧
    (∀ (cfg : Config) (s : SysState) (cid : Nat) (c : Consumer) (u : String),
      s.consumers[cid]? = some c → u ∈ s.ready →
      (watchBody cfg s cid (some u)).sem = s.sem ∧
      (watchBody cfg s cid (some u)).tasks = (cancelPending s cid).tasks ∧
      (watchBody cfg s cid (some u)).ready = s.ready ∧
      (watchBody cfg s cid (some u)).consumers[cid]? =
        some { srcRef := some u, thumbnailSrc := some u, loading := false
               failed := false, aborted := false, requestId := c.requestId + 1
               retryTimer := none, controller := none, mounted := c.mounted }) :=
  ⟨loadEntry_cache_hit, watchBody_cache_hit⟩

/-- Sample consumer used in concrete witnesses. -/
def sampleConsumer : Consumer :=
  { srcRef := some "u", thumbnailSrc := none, loading := false, failed := false
    aborted := false, requestId := 0, retryTimer := none, controller := none
    mounted := true }

/-- Sample state with the URL "u" already in the ready cache. -/
def sampleReadyState : SysState :=
  { sem := { active := 0, queue := [] }, ready := ["u"]
    consumers := [sampleConsumer], tasks := [], nextTaskId := 0 }

/-- Witness for c3_no_reprobe_after_ready at a concrete cached URL. -/
theorem c3_no_reprobe_after_ready_witness :
    sampleReadyState.consumers[0]? = some sampleConsumer ∧
    sampleConsumer.aborted = false ∧ (0 : Nat) = sampleConsumer.requestId ∧
    "u" ∈ sampleReadyState.ready ∧
    loadEntry fetchConfig sampleReadyState 0 "u" 0 0 =
      setC sampleReadyState 0
        { sampleConsumer with thumbnailSrc := some "u", loading := false } := by
  refine ⟨rfl, rfl, rfl, by simp [sampleReadyState], ?_⟩
  exact c3_no_reprobe_after_ready.1 fetchConfig sampleReadyState 0 sampleConsumer
    "u" 0 0 rfl rfl rfl (by simp [sampleReadyState])

/-! ### Locality: steps of other consumers do not touch a quiescent consumer -/

/-- No pending slot-holding continuation and no queued semaphore waiter
belongs to consumer cid. -/
def NoCid (s : SysState) (cid : Nat) : Prop :=
  (∀ t ∈ s.tasks, t.cid ≠ cid) ∧ (∀ w ∈ s.sem.queue, w.cid ≠ cid)

theorem abortCtl_cid (ts : List Task) (ctl : Option Nat) :
    ∀ t' ∈ abortCtl ts ctl, ∃ t ∈ ts, t'.cid = t.cid := by
  intro t' ht'
  cases ctl with
  | none => exact ⟨t', ht', rfl⟩
  | some tid =>
    unfold abortCtl abortTaskList at ht'
    obtain ⟨t, ht, hmap⟩ := List.mem_map.1 ht'
    refine ⟨t, ht, ?_⟩
    subst hmap
    split
    · split
      · rfl
      · rfl
    · rfl

theorem noCid_cancelPending (s : SysState) (j cid : Nat) (h : NoCid s cid) :
    NoCid (cancelPending s j) cid := by
  obtain ⟨h1, h2⟩ := h
  unfold cancelPending
  split
  · exact ⟨h1, h2⟩
  · refine ⟨?_, h2⟩
    intro t' ht'
    obtain ⟨t, ht, hcid⟩ := abortCtl_cid s.tasks _ t' ht'
    rw [hcid]
    exact h1 t ht

theorem cancelPending_get_other (s : SysState) (j cid : Nat) (hne : j ≠ cid) :
    (cancelPending s j).consumers[cid]? = s.consumers[cid]? := by
  unfold cancelPending
  split
  · rfl
  · exact List.getElem?_set_ne hne

theorem noCid_loadEntry (cfg : Config) (s : SysState) (j : Nat) (src : String)
    (attempt rid cid : Nat) (hne : j ≠ cid) (h : NoCid s cid) :
    NoCid (loadEntry cfg s j src attempt rid) cid := by
  obtain ⟨h1, h2⟩ := h
  unfold loadEntry
  split
  · exact ⟨h1, h2⟩
  · split
    · exact ⟨h1, h2⟩
    · split
      · exact ⟨h1, h2⟩
      · simp only [acquireSemaphore]
        split
        · refine ⟨?_, h2⟩
          intro t' ht'
          rcases List.mem_append.1 ht' with ht | ht
          · exact h1 t' ht
          · rw [List.mem_singleton.1 ht]
            exact hne
        · refine ⟨h1, ?_⟩
          intro w hw
          rcases List.mem_append.1 hw with hw | hw
          · exact h2 w hw
          · rw [List.mem_singleton.1 hw]
            exact hne

theorem loadEntry_get_other (cfg : Config) (s : SysState) (j : Nat) (src : String)
    (attempt rid cid : Nat) (hne : j ≠ cid) :
    (loadEntry cfg s j src attempt rid).consumers[cid]? = s.consumers[cid]? := by
  unfold loadEntry
  split
  · rfl
  · split
    · rfl
    · split
      · exact List.getElem?_set_ne hne
      · simp only [acquireSemaphore]
        split
        · exact List.getElem?_set_ne hne
        · exact List.getElem?_set_ne hne

theorem noCid_releaseAndPromote (s : SysState) (cid : Nat) (h : NoCid s cid) :
    NoCid (releaseAndPromote s) cid := by
  obtain ⟨h1, h2⟩ := h
  unfold releaseAndPromote releaseSemaphore promote
  cases hq : s.sem.queue with
  | nil => exact ⟨h1, by intro w hw; cases hw⟩
  | cons w rest =>
    refine ⟨?_, ?_⟩
    · intro t' ht'
      rcases List.mem_append.1 ht' with ht | ht
      · exact h1 t' ht
      · rw [List.mem_singleton.1 ht]
        exact h2 w (by rw [hq]; exact List.mem_cons_self w rest)
    · intro w' hw'
      exact h2 w' (by rw [hq]; exact List.mem_cons_of_mem w hw')

theorem releaseAndPromote_get (s : SysState) (cid : Nat) :
    (releaseAndPromote s).consumers[cid]? = s.consumers[cid]? := by
  rw [releaseAndPromote_consumers]

theorem noCid_removeTask (s : SysState) (tid cid : Nat)
    (h : ∀ t ∈ s.tasks, t.cid ≠ cid) :
    ∀ t' ∈ removeTask s.tasks tid, t'.cid ≠ cid := by
  intro t' ht'
  exact h t' ((List.eraseP_sublist _).mem ht')

theorem setC_get_other (s : SysState) (j cid : Nat) (c : Consumer) (hne : j ≠ cid) :
    (setC s j c).consumers[cid]? = s.consumers[cid]? :=
  List.getElem?_set_ne hne

theorem noCid_setC (s : SysState) (j cid : Nat) (c : Consumer) (h : NoCid s cid) :
    NoCid (setC s j c) cid := h

theorem noCid_watchBody (cfg : Config) (s : SysState) (j : Nat) (v : Option String)
    (cid : Nat) (hne : j ≠ cid) (h : NoCid s cid) :
    NoCid (watchBody cfg s j v) cid := by
  have h1 := noCid_cancelPending s j cid h
  unfold watchBody
  dsimp only
  split
  · exact h1
  · split
    · exact noCid_loadEntry cfg _ j _ 0 _ cid hne h1
    · exact h1

theorem watchBody_get_other (cfg : Config) (s : SysState) (j : Nat)
    (v : Option String) (cid : Nat) (hne : j ≠ cid) :
    (watchBody cfg s j v).consumers[cid]? = s.consumers[cid]? := by
  unfold watchBody
  dsimp only
  split
  · exact cancelPending_get_other s j cid hne
  · split
    · rw [loadEntry_get_other cfg _ j _ 0 _ cid hne,
          setC_get_other _ j cid _ hne, cancelPending_get_other s j cid hne]
    · rw [setC_get_other _ j cid _ hne, cancelPending_get_other s j cid hne]

theorem noCid_retryBody (cfg : Config) (s s' : SysState) (j cid : Nat)
    (hne : j ≠ cid) (h : retryBody cfg s j = some s') (hn : NoCid s cid) :
    NoCid s' cid ∧ s'.consumers[cid]? = s.consumers[cid]? := by
  unfold retryBody at h
  split at h
  · cases h
  · split at h
    · cases h; exact ⟨hn, rfl⟩
    · dsimp only at h
      split at h
      · cases h
        exact ⟨noCid_cancelPending s j cid hn, cancelPending_get_other s j cid hne⟩
      · cases h
        refine ⟨noCid_loadEntry cfg _ j _ 0 _ cid hne (noCid_cancelPending s j cid hn), ?_⟩
        rw [loadEntry_get_other cfg _ j _ 0 _ cid hne,
            setC_get_other _ j cid _ hne, cancelPending_get_other s j cid hne]

theorem noCid_unmountBody (s : SysState) (j cid : Nat) (hne : j ≠ cid)
    (hn : NoCid s cid) :
    NoCid (unmountBody s j) cid ∧ (unmountBody s j).consumers[cid]? = s.consumers[cid]? := by
  have h1 := noCid_cancelPending s j cid hn
  unfold unmountBody
  dsimp only
  split
  · exact ⟨h1, cancelPending_get_other s j cid hne⟩
  · exact ⟨h1, by rw [setC_get_other _ j cid _ hne, cancelPending_get_other s j cid hne]⟩

theorem noCid_timerFire (cfg : Config) (s s' : SysState) (j cid : Nat)
    (hne : j ≠ cid) (h : timerFire cfg s j = some s') (hn : NoCid s cid) :
    NoCid s' cid ∧ s'.consumers[cid]? = s.consumers[cid]? := by
  unfold timerFire at h
  split at h
  · cases h
  · split at h
    · cases h
    · cases h
      refine ⟨noCid_loadEntry cfg _ j _ _ _ cid hne hn, ?_⟩
      rw [loadEntry_get_other cfg _ j _ _ _ cid hne, setC_get_other _ j cid _ hne]

theorem noCid_runAcq (s s' : SysState) (tid cid : Nat) (h : runAcq s tid = some s')
    (hn : NoCid s cid) : NoCid s' cid ∧ s'.consumers[cid]? = s.consumers[cid]? := by
  unfold runAcq at h
  split at h
  · cases h
  · rename_i t hf
    split at h
    · cases h
    · split at h
      · cases h
      · rename_i c hc
        have htcid : t.cid ≠ cid := hn.1 t (findTask_mem s tid t hf)
        split at h
        · cases h
          refine ⟨noCid_releaseAndPromote _ cid ⟨noCid_removeTask s tid cid hn.1, hn.2⟩, ?_⟩
          rw [releaseAndPromote_get]
        · cases h
          refine ⟨⟨?_, hn.2⟩, List.getElem?_set_ne htcid⟩
          intro t' ht'
          obtain ⟨t0, ht0, hmap⟩ := List.mem_map.1 ht'
          have : t'.cid = t0.cid := by
            rw [← hmap]
            split
            · rfl
            · rfl
          rw [this]
          exact hn.1 t0 ht0

theorem noCid_stepSettle (cfg : Config) (s s' : SysState) (tid cid : Nat)
    (o : Outcome) (h : stepSettle cfg s tid o = some s') (hn : NoCid s cid) :
    NoCid s' cid ∧ s'.consumers[cid]? = s.consumers[cid]? := by
  unfold stepSettle at h
  split at h
  · cases h
  · rename_i t hf
    split at h
    · cases h
    · split at h
      · split at h
        · cases h
        · rename_i c hc
          have htcid : t.cid ≠ cid := hn.1 t (findTask_mem s tid t hf)
          cases h
          refine ⟨noCid_releaseAndPromote _ cid ⟨noCid_removeTask s tid cid hn.1, hn.2⟩, ?_⟩
          rw [releaseAndPromote_get]
          exact List.getElem?_set_ne htcid
      · cases h

theorem noCid_mountBody (cfg : Config) (s : SysState) (v : Option String)
    (cid : Nat) (hlt : cid < s.consumers.length) (hn : NoCid s cid) :
    NoCid (mountBody cfg s v) cid ∧
    (mountBody cfg s v).consumers[cid]? = s.consumers[cid]? := by
  unfold mountBody
  have hne : s.consumers.length ≠ cid := by omega
  constructor
  · exact noCid_watchBody cfg _ _ v cid hne hn
  · rw [watchBody_get_other cfg _ _ v cid hne]
    simp only
    rw [List.getElem?_append, if_pos hlt]

/-- One enabled step that is not the watch, retry, or unmount of consumer cid
leaves a consumer with no pending work (no tasks, no waiters, no timer)
untouched, and creates no work for it. -/
theorem quiet_step (cfg : Config) (a : Act) (s s' : SysState) (cid : Nat)
    (c : Consumer) (hget : s.consumers[cid]? = some c)
    (htimer : c.retryTimer = none) (hn : NoCid s cid)
    (h : stepA cfg a s = some s') (hw : ∀ v, a ≠ .watch cid v)
    (hr : a ≠ .retry cid) (hu : a ≠ .unmount cid) :
    NoCid s' cid ∧ s'.consumers[cid]? = some c := by
  cases a with
  | mount v =>
    simp only [stepA] at h
    cases h
    have hlt : cid < s.consumers.length := getElem?_lt_length _ _ _ hget
    obtain ⟨h1, h2⟩ := noCid_mountBody cfg s v cid hlt hn
    exact ⟨h1, by rw [h2]; exact hget⟩
  | watch j v =>
    have hne : j ≠ cid := by
      intro hj
      subst hj
      exact (hw v) rfl
    simp only [stepA] at h
    split at h
    · cases h
    · split at h
      · cases h
        refine ⟨noCid_watchBody cfg s j v cid hne hn, ?_⟩
        rw [watchBody_get_other cfg s j v cid hne]
        exact hget
      · cases h
  | retry j =>
    have hne : j ≠ cid := by
      intro hj
      subst hj
      exact hr rfl
    simp only [stepA] at h
    split at h
    · split at h
      · cases h
      · split at h
        · obtain ⟨h1, h2⟩ := noCid_retryBody cfg s s' j cid hne h hn
          exact ⟨h1, by rw [h2]; exact hget⟩
        · cases h
    · cases h
  | unmount j =>
    have hne : j ≠ cid := by
      intro hj
      subst hj
      exact hu rfl
    simp only [stepA] at h
    split at h
    · cases h
    · split at h
      · cases h
        obtain ⟨h1, h2⟩ := noCid_unmountBody s j cid hne hn
        exact ⟨h1, by rw [h2]; exact hget⟩
      · cases h
  | timer j =>
    by_cases hj : j = cid
    · subst hj
      simp [stepA, timerFire, hget, htimer] at h
    · obtain ⟨h1, h2⟩ := noCid_timerFire cfg s s' j cid hj h hn
      exact ⟨h1, by rw [h2]; exact hget⟩
  | runTask tid =>
    obtain ⟨h1, h2⟩ := noCid_runAcq s s' tid cid h hn
    exact ⟨h1, by rw [h2]; exact hget⟩
  | settle tid o =>
    obtain ⟨h1, h2⟩ := noCid_stepSettle cfg s s' tid cid o h hn
    exact ⟨h1, by rw [h2]; exact hget⟩

/-- Once a consumer is unmounted, its watch can no longer fire (Vue stops the
watcher), retry() can no longer be clicked, and it cannot unmount twice. -/
theorem unmounted_acts_disabled (cfg : Config) (s : SysState) (cid : Nat)
    (c : Consumer) (hget : s.consumers[cid]? = some c) (hm : c.mounted = false) :
    (∀ v, stepA cfg (.watch cid v) s = none) ∧
    stepA cfg (.retry cid) s = none ∧ stepA cfg (.unmount cid) s = none := by
  refine ⟨?_, ?_, ?_⟩
  · intro v
    simp [stepA, hget, hm]
  · simp only [stepA]
    split
    · rw [hget]
      simp [hm]
    · rfl
  · simp [stepA, hget, hm]

/-- Trace stability: an unmounted consumer with no pending work is never
mutated again by any later event sequence. -/
theorem quiet_run_unmounted (cfg : Config) (acts : List Act) :
    ∀ (s s' : SysState) (cid : Nat) (c : Consumer),
      s.consumers[cid]? = some c → c.mounted = false → c.retryTimer = none →
      NoCid s cid → run cfg acts s = some s' → s'.consumers[cid]? = some c := by
  induction acts with
  | nil =>
    intro s s' cid c hget hm ht hn h
    simp only [run] at h
    cases h
    exact hget
  | cons a rest ih =>
    intro s s' cid c hget hm ht hn h
    simp only [run] at h
    cases hst : stepA cfg a s with
    | none => rw [hst] at h; cases h
    | some s1 =>
      rw [hst] at h
      have hdis := unmounted_acts_disabled cfg s cid c hget hm
      have hw : ∀ v, a ≠ .watch cid v := by
        intro v hv
        subst hv
        rw [hdis.1 v] at hst
        cases hst
      have hr : a ≠ .retry cid := by
        intro hv
        subst hv
        rw [hdis.2.1] at hst
        cases hst
      have hu : a ≠ .unmount cid := by
        intro hv
        subst hv
        rw [hdis.2.2] at hst
        cases hst
      obtain ⟨h1, h2⟩ := quiet_step cfg a s s1 cid c hget ht hn hst hw hr hu
      exact ih s1 s' cid c h2 hm ht h1 h

theorem cancelPending_get_self (s : SysState) (cid : Nat) (c : Consumer)
    (hget : s.consumers[cid]? = some c) :
    (cancelPending s cid).consumers[cid]? =
      some { c with aborted := true, requestId := c.requestId + 1
                    controller := none, retryTimer := none } := by
  unfold cancelPending
  simp only [hget]
  exact List.getElem?_set_self (by simpa using getElem?_lt_length _ _ _ hget)

theorem unmountBody_get_self (s : SysState) (cid : Nat) (c : Consumer)
    (hget : s.consumers[cid]? = some c) :
    (unmountBody s cid).consumers[cid]? =
      some { c with aborted := true, requestId := c.requestId + 1
                    controller := none, retryTimer := none, mounted := false } := by
  unfold unmountBody
  dsimp only
  rw [cancelPending_get_self s cid c hget]
  dsimp only
  simp only [setC]
  rw [List.getElem?_set_self]
  simp [cancelPending_consumers_length]
  exact getElem?_lt_length _ _ _ hget

theorem noCid_unmountBody_self (s : SysState) (cid : Nat) (hn : NoCid s cid) :
    NoCid (unmountBody s cid) cid := by
  have h1 := noCid_cancelPending s cid cid hn
  unfold unmountBody
  dsimp only
  split
  · exact h1
  · exact h1

/-- C7: tearing down the consumer (unmount) while a backoff timer is pending
clears that timer via clearTimeout, bumps the request id, aborts any
in-flight probe of the consumer and marks the sequence aborted, so that
after teardown no state mutation of the consumer's refs (thumbnailSrc,
loading, failed) ever occurs: the consumer record never changes again under
any later event sequence.  During a backoff wait the sequence holds no
semaphore slot and has no probe in flight (the probe settled in order to
schedule the timer and its finally block released the slot), which is the
hypothesis NoCid. -/
theorem c7_unmount_clears_timer (cfg : Config) (s : SysState) (cid : Nat)
    (c : Consumer) (tm : Timer) (hget : s.consumers[cid]? = some c)
    (hm : c.mounted = true) (htimer : c.retryTimer = some tm)
    (hn : NoCid s cid) :
    stepA cfg (.unmount cid) s = some (unmountBody s cid) ∧
    (unmountBody s cid).consumers[cid]? =
      some { c with aborted := true, requestId := c.requestId + 1
                    controller := none, retryTimer := none, mounted := false } ∧
    (∀ (acts : List Act) (s₂ : SysState),
      run cfg acts (unmountBody s cid) = some s₂ →
      s₂.consumers[cid]? =
        some { c with aborted := true, requestId := c.requestId + 1
                      controller := none, retryTimer := none, mounted := false }) := by
  refine ⟨by simp [stepA, hget, hm], unmountBody_get_self s cid c hget, ?_⟩
  intro acts s₂ hrun
  exact quiet_run_unmounted cfg acts (unmountBody s cid) s₂ cid _
    (unmountBody_get_self s cid c hget) rfl rfl (noCid_unmountBody_self s cid hn) hrun

/-- Sample consumer waiting out a backoff timer. -/
def sampleTimerConsumer : Consumer :=
  { srcRef := some "u", thumbnailSrc := none, loading := true, failed := false
    aborted := false, requestId := 1
    retryTimer := some { src := "u", nextAttempt := 1, rid := 1, delay := 1500 }
    controller := none, mounted := true }

/-- Sample state whose only consumer is waiting out a backoff timer. -/
def sampleTimerState : SysState :=
  { sem := { active := 0, queue := [] }, ready := []
    consumers := [sampleTimerConsumer], tasks := [], nextTaskId := 0 }

/-- Witness for c7_unmount_clears_timer at a concrete state with a pending
backoff timer. -/
theorem c7_unmount_clears_timer_witness :
    stepA fetchConfig (.unmount 0) sampleTimerState =
      some (unmountBody sampleTimerState 0) ∧
    (unmountBody sampleTimerState 0).consumers[0]? =
      some { sampleTimerConsumer with
             aborted := true, requestId := 2
             controller := none, retryTimer := none, mounted := false } ∧
    (∀ (acts : List Act) (s₂ : SysState),
      run fetchConfig acts (unmountBody sampleTimerState 0) = some s₂ →
      s₂.consumers[0]? =
        some { sampleTimerConsumer with
               aborted := true, requestId := 2
               controller := none, retryTimer := none, mounted := false }) :=
  c7_unmount_clears_timer fetchConfig sampleTimerState 0 sampleTimerConsumer
    { src := "u", nextAttempt := 1, rid := 1, delay := 1500 }
    rfl rfl rfl (by constructor <;> simp [sampleTimerState])

/-! ### Characterising probe settlement (claims C2, C5, C8, C9) -/

theorem releaseAndPromote_sem (s : SysState) :
    (releaseAndPromote s).sem = (releaseSemaphore s.sem).1 := by
  unfold releaseAndPromote releaseSemaphore promote
  cases s.sem.queue <;> rfl

theorem releaseAndPromote_tasks (s : SysState) :
    (releaseAndPromote s).tasks = s.tasks ++
      (match s.sem.queue with
       | [] => ([] : List Task)
       | w :: _ => [{ id := s.nextTaskId, cid := w.cid, src := w.src
                      attempt := w.attempt, rid := w.rid, phase := .acquired }]) := by
  unfold releaseAndPromote releaseSemaphore promote
  cases hq : s.sem.queue with
  | nil => simp
  | cons w rest => rfl

theorem stepSettle_eq_fetch (cfg : Config) (s : SysState) (tid : Nat)
    (o : Outcome) (t : Task) (sig : Bool) (c : Consumer)
    (hk : cfg.probeKind = .fetch) (hf : findTask s tid = some t)
    (hp : t.phase = .inflight sig) (ho : outcomeAllowed cfg sig o = true)
    (hc : s.consumers[t.cid]? = some c) :
    stepSettle cfg s tid o = some (releaseAndPromote
      { s with ready := (settleFetchBody cfg s.ready c t o).2
               consumers := s.consumers.set t.cid (settleFetchBody cfg s.ready c t o).1
               tasks := removeTask s.tasks tid }) := by
  unfold stepSettle
  simp only [hf, hp, ho, hc, hk, if_true]

theorem stepSettle_eq_image (cfg : Config) (s : SysState) (tid : Nat)
    (o : Outcome) (t : Task) (sig : Bool) (c : Consumer)
    (hk : cfg.probeKind = .image) (hf : findTask s tid = some t)
    (hp : t.phase = .inflight sig) (ho : outcomeAllowed cfg sig o = true)
    (hc : s.consumers[t.cid]? = some c) :
    stepSettle cfg s tid o = some (releaseAndPromote
      { s with ready := (settleImageBody cfg s.ready c t o).2
               consumers := s.consumers.set t.cid (settleImageBody cfg s.ready c t o).1
               tasks := removeTask s.tasks tid }) := by
  unfold stepSettle
  simp only [hf, hp, ho, hc, hk, if_true]

theorem settle_get (s : SysState) (ready' : List String) (cid : Nat)
    (c' : Consumer) (tasks' : List Task) (hlt : cid < s.consumers.length) :
    (releaseAndPromote { s with ready := ready'
                                consumers := s.consumers.set cid c'
                                tasks := tasks' }).consumers[cid]? = some c' := by
  rw [releaseAndPromote_consumers]
  exact List.getElem?_set_self (by simpa using hlt)

/-- C8: when an in-flight probe settles with the AbortError produced by
cancellation, the catch branch handles it silently in every variant: the
settlement sets loading to false and returns — failed, thumbnailSrc and the
retry timer are untouched, no retry attempt is consumed (no re-entry of
load is scheduled anywhere), the ready cache is untouched, and the finally
block releases the semaphore slot. -/
theorem c8_abort_silent (cfg : Config) (s : SysState) (tid : Nat) (t : Task)
    (c : Consumer) (hf : findTask s tid = some t) (hp : t.phase = .inflight true)
    (hc : s.consumers[t.cid]? = some c) :
    ∃ s' : SysState, stepSettle cfg s tid .abortError = some s' ∧
      ∃ c' : Consumer, s'.consumers[t.cid]? = some c' ∧
        c' = { c with controller := none, loading := false } ∧
        c'.loading = false ∧ c'.failed = c.failed ∧
        c'.thumbnailSrc = c.thumbnailSrc ∧ c'.retryTimer = c.retryTimer ∧
        s'.ready = s.ready ∧ s'.sem = (releaseSemaphore s.sem).1 ∧
        s'.tasks = removeTask s.tasks tid ++
          (match s.sem.queue with
           | [] => ([] : List Task)
           | w :: _ => [{ id := s.nextTaskId, cid := w.cid, src := w.src
                          attempt := w.attempt, rid := w.rid, phase := .acquired }]) := by
  have hlt : t.cid < s.consumers.length := getElem?_lt_length _ _ _ hc
  have ho : outcomeAllowed cfg true .abortError = true := rfl
  cases hk : cfg.probeKind with
  | image =>
    refine ⟨_, stepSettle_eq_image cfg s tid .abortError t true c hk hf hp ho hc, ?_⟩
    refine ⟨_, settle_get s _ t.cid _ _ hlt, rfl, rfl, rfl, rfl, rfl, ?_, ?_, ?_⟩
    · rw [releaseAndPromote_ready]
      exact rfl
    · rw [releaseAndPromote_sem]
    · rw [releaseAndPromote_tasks]
  | fetch =>
    refine ⟨_, stepSettle_eq_fetch cfg s tid .abortError t true c hk hf hp ho hc, ?_⟩
    refine ⟨_, settle_get s _ t.cid _ _ hlt, rfl, rfl, rfl, rfl, rfl, ?_, ?_, ?_⟩
    · rw [releaseAndPromote_ready]
      exact rfl
    · rw [releaseAndPromote_sem]
    · rw [releaseAndPromote_tasks]

/-- Sample consumer with an in-flight probe whose controller was aborted by
a cancellation (the request id has moved past the probe's captured id). -/
def sampleInflightConsumer : Consumer :=
  { srcRef := some "u", thumbnailSrc := none, loading := true, failed := false
    aborted := true, requestId := 2, retryTimer := none, controller := none
    mounted := true }

/-- Sample state with one aborted in-flight probe holding the only slot. -/
def sampleInflightState : SysState :=
  { sem := { active := 1, queue := [] }, ready := []
    consumers := [sampleInflightConsumer]
    tasks := [{ id := 0, cid := 0, src := "u", attempt := 0, rid := 1
                phase := .inflight true }]
    nextTaskId := 1 }

/-- Witness for c8_abort_silent at a concrete aborted in-flight probe. -/
theorem c8_abort_silent_witness :
    ∃ s' : SysState, stepSettle fetchConfig sampleInflightState 0 .abortError = some s' ∧
      ∃ c' : Consumer, s'.consumers[0]? = some c' ∧ c'.loading = false ∧
        c'.failed = false ∧ c'.thumbnailSrc = none ∧ c'.retryTimer = none ∧
        s'.ready = [] ∧ s'.sem.active = 0 := by
  obtain ⟨s', hstep, c', hget, hceq, hl, hfl, hth, hrt, hr, hsem, htasks⟩ :=
    c8_abort_silent fetchConfig sampleInflightState 0
      { id := 0, cid := 0, src := "u", attempt := 0, rid := 1, phase := .inflight true }
      sampleInflightConsumer rfl rfl rfl
  refine ⟨s', hstep, c', hget, hl, ?_, ?_, ?_, ?_, ?_⟩
  · rw [hfl]
    exact rfl
  · rw [hth]
    exact rfl
  · rw [hrt]
    exact rfl
  · rw [hr]
    exact rfl
  · rw [hsem]
    exact rfl

theorem settleFetchBody_definitive (cfg : Config) (ready : List String)
    (c : Consumer) (t : Task) (n : Nat) (hab : c.aborted = false)
    (hrid : t.rid = c.requestId) (h202 : n ≠ 202) (hok : respOk n = false) :
    settleFetchBody cfg ready c t (.status n) =
      ({ c with controller := none, failed := true, loading := false }, ready) := by
  unfold settleFetchBody
  dsimp only
  rw [if_neg (by simp [hab, hrid]), if_neg h202, if_neg (by simp [hok])]

theorem settleFetchBody_notReady (cfg : Config) (ready : List String)
    (c : Consumer) (t : Task) (hab : c.aborted = false)
    (hrid : t.rid = c.requestId) (hatt : t.attempt < cfg.maxRetries) :
    settleFetchBody cfg ready c t (.status 202) =
      ({ c with controller := none
                retryTimer := some { src := t.src, nextAttempt := t.attempt + 1
                                     rid := t.rid, delay := retryDelay cfg t.attempt } },
       ready) := by
  unfold settleFetchBody
  dsimp only
  rw [if_neg (by simp [hab, hrid]), if_pos rfl, if_neg (by omega)]

theorem settleFetchBody_maxed (cfg : Config) (ready : List String)
    (c : Consumer) (t : Task) (hab : c.aborted = false)
    (hrid : t.rid = c.requestId) (hatt : t.attempt ≥ cfg.maxRetries) :
    settleFetchBody cfg ready c t (.status 202) =
      ({ c with controller := none, failed := true, loading := false }, ready) := by
  unfold settleFetchBody
  dsimp only
  rw [if_neg (by simp [hab, hrid]), if_pos rfl, if_pos hatt]

theorem settleImageBody_failure_maxed (cfg : Config) (ready : List String)
    (c : Consumer) (t : Task) (hatt : t.attempt ≥ cfg.maxRetries) :
    settleImageBody cfg ready c t .failure =
      ({ c with controller := none, failed := true, loading := false }, ready) := by
  unfold settleImageBody
  dsimp only
  rw [if_neg (fun hcond => absurd hcond.2.2 (by omega))]

/-- C9: in the fetch-based variants, a resolved probe response that is
neither HTTP 202 nor ok (404, 5xx, any non-2xx status) transitions the
current sequence directly to failed with loading false, without scheduling
any retry and regardless of how many attempts remain; and the 202 check is
performed before the response.ok check — 202 is itself an ok status
(respOk 202 = true), yet a fresh 202 settlement schedules a backoff timer
and neither caches the URL nor sets thumbnailSrc. -/
theorem c9_definitive_failure_fails_fast :
    respOk 202 = true ∧
    (∀ (cfg : Config) (s : SysState) (tid n : Nat) (t : Task) (sig : Bool)
        (c : Consumer),
      cfg.probeKind = .fetch → findTask s tid = some t →
      t.phase = .inflight sig → s.consumers[t.cid]? = some c →
      c.aborted = false → t.rid = c.requestId → n ≠ 202 → respOk n = false →
      ∃ s', stepSettle cfg s tid (.status n) = some s' ∧
        ∃ c', s'.consumers[t.cid]? = some c' ∧ c'.failed = true ∧
          c'.loading = false ∧ c'.retryTimer = c.retryTimer ∧
          c'.thumbnailSrc = c.thumbnailSrc ∧
          s'.ready = s.ready ∧ s'.sem = (releaseSemaphore s.sem).1) ∧
    (∀ (cfg : Config) (s : SysState) (tid : Nat) (t : Task) (sig : Bool)
        (c : Consumer),
      cfg.probeKind = .fetch → findTask s tid = some t →
      t.phase = .inflight sig → s.consumers[t.cid]? = some c →
      c.aborted = false → t.rid = c.requestId → t.attempt < cfg.maxRetries →
      ∃ s', stepSettle cfg s tid (.status 202) = some s' ∧
        ∃ c', s'.consumers[t.cid]? = some c' ∧
          c'.retryTimer = some { src := t.src, nextAttempt := t.attempt + 1
                                 rid := t.rid, delay := retryDelay cfg t.attempt } ∧
          c'.failed = c.failed ∧ c'.loading = c.loading ∧
          c'.thumbnailSrc = c.thumbnailSrc ∧ s'.ready = s.ready) := by
  refine ⟨rfl, ?_, ?_⟩
  · intro cfg s tid n t sig c hk hf hp hc hab hrid h202 hok
    have hlt := getElem?_lt_length _ _ _ hc
    have ho : outcomeAllowed cfg sig (.status n) = true := by
      simp [outcomeAllowed, hk]
    have hbody := settleFetchBody_definitive cfg s.ready c t n hab hrid h202 hok
    refine ⟨_, stepSettle_eq_fetch cfg s tid (.status n) t sig c hk hf hp ho hc, ?_⟩
    rw [hbody]
    dsimp only
    refine ⟨_, settle_get s _ t.cid _ _ hlt, rfl, rfl, rfl, rfl, ?_, ?_⟩
    · rw [releaseAndPromote_ready]
    · rw [releaseAndPromote_sem]
  · intro cfg s tid t sig c hk hf hp hc hab hrid hatt
    have hlt := getElem?_lt_length _ _ _ hc
    have ho : outcomeAllowed cfg sig (.status 202) = true := by
      simp [outcomeAllowed, hk]
    have hbody := settleFetchBody_notReady cfg s.ready c t hab hrid hatt
    refine ⟨_, stepSettle_eq_fetch cfg s tid (.status 202) t sig c hk hf hp ho hc, ?_⟩
    rw [hbody]
    dsimp only
    refine ⟨_, settle_get s _ t.cid _ _ hlt, rfl, rfl, rfl, rfl, ?_⟩
    · rw [releaseAndPromote_ready]

/-- Witness for c9_definitive_failure_fails_fast: a fresh in-flight fetch
settling with HTTP 404 fails immediately. -/
theorem c9_definitive_failure_fails_fast_witness :
    respOk 202 = true ∧
    (∃ s', stepSettle fetchConfig
        { sem := { active := 1, queue := [] }, ready := []
          consumers := [{ srcRef := some "u", thumbnailSrc := none
                          loading := true, failed := false, aborted := false
                          requestId := 1, retryTimer := none
                          controller := some 0, mounted := true }]
          tasks := [{ id := 0, cid := 0, src := "u", attempt := 0, rid := 1
                      phase := .inflight false }]
          nextTaskId := 1 } 0 (.status 404) = some s' ∧
      ∃ c', s'.consumers[0]? = some c' ∧ c'.failed = true ∧ c'.loading = false) := by
  refine ⟨c9_definitive_failure_fails_fast.1, ?_⟩
  obtain ⟨s', hstep, c', hget, hfl, hl, hrest⟩ :=
    c9_definitive_failure_fails_fast.2.1 fetchConfig
      { sem := { active := 1, queue := [] }, ready := []
        consumers := [{ srcRef := some "u", thumbnailSrc := none
                        loading := true, failed := false, aborted := false
                        requestId := 1, retryTimer := none
                        controller := some 0, mounted := true }]
        tasks := [{ id := 0, cid := 0, src := "u", attempt := 0, rid := 1
                    phase := .inflight false }]
        nextTaskId := 1 } 0 404
      { id := 0, cid := 0, src := "u", attempt := 0, rid := 1
        phase := .inflight false }
      false
      { srcRef := some "u", thumbnailSrc := none, loading := true
        failed := false, aborted := false, requestId := 1, retryTimer := none
        controller := some 0, mounted := true }
      rfl rfl rfl rfl rfl rfl (by decide) (by decide)
  exact ⟨s', hstep, c', hget, hfl, hl⟩

/-- C5: when a probe settles with a retriable outcome (HTTP 202 in the fetch
variants; a non-abort load error in the Image-probe variant) and the attempt
count has reached MAX_RETRIES (8 in the fetch variants, 6 in the Image-probe
variant), the sequence sets failed to true and loading to false and
schedules no further automatic retry; and from a failed consumer with no
pending work, no event other than its own watch firing (a change of the
target URL) or a manual retry() can change it or start any probing for it. -/
theorem c5_max_retries_terminal :
    imageConfig.maxRetries = 6 ∧ fetchConfig.maxRetries = 8 ∧
    fetchRetryConfig.maxRetries = 8 ∧
    (∀ (cfg : Config) (s : SysState) (tid : Nat) (t : Task) (sig : Bool)
        (c : Consumer),
      cfg.probeKind = .fetch → findTask s tid = some t →
      t.phase = .inflight sig → s.consumers[t.cid]? = some c →
      c.aborted = false → t.rid = c.requestId → t.attempt ≥ cfg.maxRetries →
      ∃ s', stepSettle cfg s tid (.status 202) = some s' ∧
        ∃ c', s'.consumers[t.cid]? = some c' ∧ c'.failed = true ∧
          c'.loading = false ∧ c'.retryTimer = c.retryTimer ∧
          c'.thumbnailSrc = c.thumbnailSrc ∧ s'.ready = s.ready) ∧
    (∀ (cfg : Config) (s : SysState) (tid : Nat) (t : Task) (sig : Bool)
        (c : Consumer),
      cfg.probeKind = .image → findTask s tid = some t →
      t.phase = .inflight sig → s.consumers[t.cid]? = some c →
      t.attempt ≥ cfg.maxRetries →
      ∃ s', stepSettle cfg s tid .failure = some s' ∧
        ∃ c', s'.consumers[t.cid]? = some c' ∧ c'.failed = true ∧
          c'.loading = false ∧ c'.retryTimer = c.retryTimer ∧
          c'.thumbnailSrc = c.thumbnailSrc ∧ s'.ready = s.ready) ∧
    (∀ (cfg : Config) (a : Act) (s s' : SysState) (cid : Nat) (c : Consumer),
      s.consumers[cid]? = some c → c.retryTimer = none → NoCid s cid →
      stepA cfg a s = some s' → (∀ v, a ≠ .watch cid v) → a ≠ .retry cid →
      a ≠ .unmount cid → s'.consumers[cid]? = some c ∧ NoCid s' cid) := by
  refine ⟨rfl, rfl, rfl, ?_, ?_, ?_⟩
  · intro cfg s tid t sig c hk hf hp hc hab hrid hatt
    have hlt := getElem?_lt_length _ _ _ hc
    have ho : outcomeAllowed cfg sig (.status 202) = true := by
      simp [outcomeAllowed, hk]
    have hbody := settleFetchBody_maxed cfg s.ready c t hab hrid hatt
    refine ⟨_, stepSettle_eq_fetch cfg s tid (.status 202) t sig c hk hf hp ho hc, ?_⟩
    rw [hbody]
    dsimp only
    refine ⟨_, settle_get s _ t.cid _ _ hlt, rfl, rfl, rfl, rfl, ?_⟩
    · rw [releaseAndPromote_ready]
  · intro cfg s tid t sig c hk hf hp hc hatt
    have hlt := getElem?_lt_length _ _ _ hc
    have ho : outcomeAllowed cfg sig .failure = true := rfl
    have hbody := settleImageBody_failure_maxed cfg s.ready c t hatt
    refine ⟨_, stepSettle_eq_image cfg s tid .failure t sig c hk hf hp ho hc, ?_⟩
    rw [hbody]
    dsimp only
    refine ⟨_, settle_get s _ t.cid _ _ hlt, rfl, rfl, rfl, rfl, ?_⟩
    · rw [releaseAndPromote_ready]
  · intro cfg a s s' cid c hget htimer hn h hw hr hu
    obtain ⟨h1, h2⟩ := quiet_step cfg a s s' cid c hget htimer hn h hw hr hu
    exact ⟨h2, h1⟩

/-- Witness for c5_max_retries_terminal: an in-flight fetch at attempt 8
settling 202 goes to failed; an Image probe at attempt 6 erroring goes to
failed. -/
theorem c5_max_retries_terminal_witness :
    (∃ s', stepSettle fetchConfig
        { sem := { active := 1, queue := [] }, ready := []
          consumers := [{ srcRef := some "u", thumbnailSrc := none
                          loading := true, failed := false, aborted := false
                          requestId := 1, retryTimer := none
                          controller := some 3, mounted := true }]
          tasks := [{ id := 3, cid := 0, src := "u", attempt := 8, rid := 1
                      phase := .inflight false }]
          nextTaskId := 4 } 3 (.status 202) = some s' ∧
      ∃ c', s'.consumers[0]? = some c' ∧ c'.failed = true ∧ c'.loading = false ∧
        c'.retryTimer = none) := by
  obtain ⟨s', hstep, c', hget, hfl, hl, hrt, hrest⟩ :=
    c5_max_retries_terminal.2.2.2.1 fetchConfig
      { sem := { active := 1, queue := [] }, ready := []
        consumers := [{ srcRef := some "u", thumbnailSrc := none
                        loading := true, failed := false, aborted := false
                        requestId := 1, retryTimer := none
                        controller := some 3, mounted := true }]
        tasks := [{ id := 3, cid := 0, src := "u", attempt := 8, rid := 1
                    phase := .inflight false }]
        nextTaskId := 4 } 3
      { id := 3, cid := 0, src := "u", attempt := 8, rid := 1
        phase := .inflight false }
      false
      { srcRef := some "u", thumbnailSrc := none, loading := true
        failed := false, aborted := false, requestId := 1, retryTimer := none
        controller := some 3, mounted := true }
      rfl rfl rfl rfl rfl rfl (by decide)
  exact ⟨s', hstep, c', hget, hfl, hl, hrt⟩

theorem settleImageBody_stale (cfg : Config) (ready : List String)
    (c : Consumer) (t : Task) (o : Outcome)
    (hstale : c.aborted = true ∨ t.rid ≠ c.requestId) :
    settleImageBody cfg ready c t o =
      (match o with
       | .success => ({ c with controller := none }, ready)
       | .abortError => ({ c with controller := none, loading := false }, ready)
       | .failure => ({ c with controller := none, failed := true, loading := false }, ready)
       | .status _ => ({ c with controller := none }, ready)) := by
  unfold settleImageBody
  cases o with
  | success =>
    dsimp only
    rw [if_pos hstale]
  | abortError => rfl
  | failure =>
    dsimp only
    rw [if_neg]
    intro hcond
    rcases hstale with h | h
    · exact hcond.1 h
    · exact h hcond.2.1
  | status n => rfl

theorem settleFetchBody_stale (cfg : Config) (ready : List String)
    (c : Consumer) (t : Task) (o : Outcome)
    (hstale : c.aborted = true ∨ t.rid ≠ c.requestId) :
    settleFetchBody cfg ready c t o =
      (match o with
       | .success => ({ c with controller := none }, ready)
       | .abortError => ({ c with controller := none, loading := false }, ready)
       | .failure => ({ c with controller := none, failed := true, loading := false }, ready)
       | .status _ => ({ c with controller := none }, ready)) := by
  unfold settleFetchBody
  cases o with
  | success => rfl
  | abortError => rfl
  | failure =>
    dsimp only
    rw [if_neg]
    intro hcond
    rcases hstale with h | h
    · exact hcond.1 h
    · exact h hcond.2.1
  | status n =>
    dsimp only
    rw [if_pos hstale]

/-- C2 counterexample: the claim that a superseded settlement mutates no
state visible to the new sequence is false.  Concretely (fetch variant of
part_000): consumer 0 mounts with URL "a" and its probe goes in flight; the
watch then fires with URL "b" (cancelPending bumps the request id to 2 and
aborts the old controller, and the new sequence sets loading to true); when
the superseded probe (captured request id 1) settles with a network error,
the catch-all else of the catch block — which does not re-check the request
id — sets failed to true and loading to false, clobbering the new
sequence's state. -/
theorem c2_counterexample :
    (run fetchConfig [.mount (some "a"), .runTask 0, .watch 0 (some "b")]
        initState).map
      (fun s => (s.consumers[0]?.map (fun c => (c.loading, c.failed, c.requestId)),
                 s.tasks.map (fun t => (t.id, t.rid)))) =
      some (some (true, false, 2), [(0, 1), (1, 2)]) ∧
    (run fetchConfig [.mount (some "a"), .runTask 0, .watch 0 (some "b"),
        .settle 0 .failure] initState).map
      (fun s => s.consumers[0]?.map (fun c => (c.loading, c.failed))) =
      some (some (false, true)) :=
  ⟨rfl, rfl⟩

/-- C2 (amended): after cancelPending, a settlement of the superseded
sequence (captured request id differing from the current one, or the aborted
flag set) never sets thumbnailSrc, never adds the URL to the ready cache and
never schedules a retry timer, and its finally block releases the semaphore
slot it held; but beyond that it is not a pure no-op: every settlement path
nulls the shared controller variable, the AbortError branch sets loading to
false without re-checking the token, and a non-abort error settlement sets
failed to true and loading to false through the catch-all else. -/
theorem c2_stale_settlement (cfg : Config) (s : SysState) (tid : Nat)
    (o : Outcome) (t : Task) (sig : Bool) (c : Consumer)
    (hf : findTask s tid = some t) (hp : t.phase = .inflight sig)
    (ho : outcomeAllowed cfg sig o = true) (hc : s.consumers[t.cid]? = some c)
    (hstale : c.aborted = true ∨ t.rid ≠ c.requestId) :
    ∃ s', stepSettle cfg s tid o = some s' ∧
      s'.ready = s.ready ∧ s'.sem = (releaseSemaphore s.sem).1 ∧
      ∃ c', s'.consumers[t.cid]? = some c' ∧
        c'.thumbnailSrc = c.thumbnailSrc ∧ c'.retryTimer = c.retryTimer ∧
        c'.controller = none ∧
        c'.failed = (match o with | .failure => true | _ => c.failed) ∧
        c'.loading = (match o with
          | .success => c.loading
          | .status _ => c.loading
          | _ => false) := by
  have hlt := getElem?_lt_length _ _ _ hc
  cases hk : cfg.probeKind with
  | image =>
    have hbody := settleImageBody_stale cfg s.ready c t o hstale
    refine ⟨_, stepSettle_eq_image cfg s tid o t sig c hk hf hp ho hc, ?_⟩
    rw [hbody]
    cases o with
    | success =>
      exact ⟨by rw [releaseAndPromote_ready], by rw [releaseAndPromote_sem],
        _, settle_get s _ t.cid _ _ hlt, rfl, rfl, rfl, rfl, rfl⟩
    | abortError =>
      exact ⟨by rw [releaseAndPromote_ready], by rw [releaseAndPromote_sem],
        _, settle_get s _ t.cid _ _ hlt, rfl, rfl, rfl, rfl, rfl⟩
    | failure =>
      exact ⟨by rw [releaseAndPromote_ready], by rw [releaseAndPromote_sem],
        _, settle_get s _ t.cid _ _ hlt, rfl, rfl, rfl, rfl, rfl⟩
    | status n =>
      exact ⟨by rw [releaseAndPromote_ready], by rw [releaseAndPromote_sem],
        _, settle_get s _ t.cid _ _ hlt, rfl, rfl, rfl, rfl, rfl⟩
  | fetch =>
    have hbody := settleFetchBody_stale cfg s.ready c t o hstale
    refine ⟨_, stepSettle_eq_fetch cfg s tid o t sig c hk hf hp ho hc, ?_⟩
    rw [hbody]
    cases o with
    | success =>
      exact ⟨by rw [releaseAndPromote_ready], by rw [releaseAndPromote_sem],
        _, settle_get s _ t.cid _ _ hlt, rfl, rfl, rfl, rfl, rfl⟩
    | abortError =>
      exact ⟨by rw [releaseAndPromote_ready], by rw [releaseAndPromote_sem],
        _, settle_get s _ t.cid _ _ hlt, rfl, rfl, rfl, rfl, rfl⟩
    | failure =>
      exact ⟨by rw [releaseAndPromote_ready], by rw [releaseAndPromote_sem],
        _, settle_get s _ t.cid _ _ hlt, rfl, rfl, rfl, rfl, rfl⟩
    | status n =>
      exact ⟨by rw [releaseAndPromote_ready], by rw [releaseAndPromote_sem],
        _, settle_get s _ t.cid _ _ hlt, rfl, rfl, rfl, rfl, rfl⟩

/-- Witness for c2_stale_settlement at a concrete superseded abort. -/
theorem c2_stale_settlement_witness :
    ∃ s', stepSettle fetchConfig sampleInflightState 0 .abortError = some s' ∧
      s'.ready = sampleInflightState.ready ∧
      s'.sem = (releaseSemaphore sampleInflightState.sem).1 ∧
      ∃ c', s'.consumers[0]? = some c' ∧
        c'.thumbnailSrc = sampleInflightConsumer.thumbnailSrc ∧
        c'.retryTimer = sampleInflightConsumer.retryTimer ∧
        c'.controller = none ∧ c'.failed = sampleInflightConsumer.failed ∧
        c'.loading = false :=
  c2_stale_settlement fetchConfig sampleInflightState 0 .abortError
    { id := 0, cid := 0, src := "u", attempt := 0, rid := 1
      phase := .inflight true }
    true sampleInflightConsumer rfl rfl rfl rfl (by decide)

theorem loadEntry_miss (cfg : Config) (s : SysState) (cid : Nat) (c : Consumer)
    (src : String) (attempt rid : Nat) (hc : s.consumers[cid]? = some c)
    (hab : c.aborted = false) (hrid : rid = c.requestId) (hmem : src ∉ s.ready) :
    (loadEntry cfg s cid src attempt rid).ready = s.ready ∧
    (loadEntry cfg s cid src attempt rid).consumers[cid]? =
      some { c with loading := true } ∧
    ((∃ t' ∈ (loadEntry cfg s cid src attempt rid).tasks,
        t'.cid = cid ∧ t'.src = src ∧ t'.attempt = attempt ∧ t'.rid = rid ∧
        t'.phase = .acquired) ∨
     (∃ w ∈ (loadEntry cfg s cid src attempt rid).sem.queue,
        w.cid = cid ∧ w.src = src ∧ w.attempt = attempt ∧ w.rid = rid)) := by
  have hlt := getElem?_lt_length _ _ _ hc
  unfold loadEntry
  simp only [hc]
  rw [if_neg (by simp [hab, hrid]), if_neg hmem]
  simp only [acquireSemaphore]
  split
  · refine ⟨rfl, ?_, ?_⟩
    · exact List.getElem?_set_self (by simpa using hlt)
    · refine Or.inl ⟨_, List.mem_append_right _ (List.mem_singleton_self _), rfl, rfl, rfl, rfl, rfl⟩
  · refine ⟨rfl, ?_, ?_⟩
    · exact List.getElem?_set_self (by simpa using hlt)
    · exact Or.inr ⟨_, List.mem_append_right _ (List.mem_singleton_self _), rfl, rfl, rfl, rfl⟩

/-- C6 counterexample: the claim that retry() always resets thumbnailSrc to
null and re-enters loading is false once the URL has entered the ready
cache.  Concretely (part_001's fetch variant): consumer 0 loads "u"
successfully, so "u" is cached and the state is ready; clicking retry()
cancels and resets, but the restarted load takes the cache-hit fast path —
the final state has loading = false and thumbnailSrc = some "u", no probe
task was created and no semaphore slot was taken. -/
theorem c6_counterexample :
    (run fetchRetryConfig [.mount (some "u"), .runTask 0, .settle 0 (.status 200)]
        initState).map
      (fun s => s.consumers[0]?.map (fun c => (c.thumbnailSrc, c.failed))) =
      some (some (some "u", false)) ∧
    (run fetchRetryConfig [.mount (some "u"), .runTask 0, .settle 0 (.status 200),
        .retry 0] initState).map
      (fun s => (s.consumers[0]?.map
                   (fun c => (c.loading, c.thumbnailSrc, c.failed, c.requestId)),
                 s.tasks.length, s.sem.active)) =
      some (some (false, some "u", false, 2), 0, 0) :=
  ⟨rfl, rfl⟩

/-- C6 (amended): calling retry() while srcRef holds a URL, from any state,
cancels all pending work of the old sequence, resets failed to false,
resets thumbnailSrc to null and the attempt count to zero, and bumps the
request id; the restarted load then re-enters loading — it sets loading to
true and acquires a slot or queues a semaphore waiter at attempt 0 — unless
the URL is already in the ready cache, in which case the sequence completes
immediately to ready (thumbnailSrc set from the cache, loading false, no
probe issued). -/
theorem c6_retry_restart (cfg : Config) (s : SysState) (cid : Nat)
    (c : Consumer) (u : String) (hretry : cfg.hasRetry = true)
    (hget : s.consumers[cid]? = some c) (hm : c.mounted = true)
    (hsrc : c.srcRef = some u) :
    ∃ s', stepA cfg (.retry cid) s = some s' ∧
      s'.ready = s.ready ∧
      ∃ c', s'.consumers[cid]? = some c' ∧
        c'.aborted = false ∧ c'.failed = false ∧
        c'.requestId = c.requestId + 1 ∧ c'.retryTimer = none ∧
        c'.srcRef = some u ∧
        (if u ∈ s.ready then
          c'.thumbnailSrc = some u ∧ c'.loading = false ∧
          s'.sem = s.sem ∧ s'.tasks = (cancelPending s cid).tasks
        else
          c'.thumbnailSrc = none ∧ c'.loading = true ∧
          ((∃ t' ∈ s'.tasks, t'.cid = cid ∧ t'.src = u ∧ t'.attempt = 0 ∧
              t'.rid = c.requestId + 1 ∧ t'.phase = .acquired) ∨
           (∃ w ∈ s'.sem.queue, w.cid = cid ∧ w.src = u ∧ w.attempt = 0 ∧
              w.rid = c.requestId + 1))) := by
  have hlt := getElem?_lt_length _ _ _ hget
  have hcp := cancelPending_get_self s cid c hget
  have hstep : stepA cfg (.retry cid) s = retryBody cfg s cid := by
    simp [stepA, hretry, hget, hm]
  have hbody : retryBody cfg s cid = some (loadEntry cfg
      (setC (cancelPending s cid) cid
        { c with aborted := false, thumbnailSrc := none, failed := false
                 requestId := c.requestId + 1, controller := none
                 retryTimer := none })
      cid u 0 (c.requestId + 1)) := by
    unfold retryBody
    simp only [hget, hsrc, hcp]
  have hget2 : (setC (cancelPending s cid) cid
      { c with aborted := false, thumbnailSrc := none, failed := false
               requestId := c.requestId + 1, controller := none
               retryTimer := none }).consumers[cid]? =
      some { c with aborted := false, thumbnailSrc := none, failed := false
                    requestId := c.requestId + 1, controller := none
                    retryTimer := none } := by
    simp only [setC]
    exact List.getElem?_set_self (by simp [cancelPending_consumers_length]; omega)
  by_cases hmem : u ∈ s.ready
  · have hload := loadEntry_cache_hit cfg _ cid _ u 0 (c.requestId + 1) hget2 rfl rfl
      (by rw [setC_ready, cancelPending_ready]; exact hmem)
    refine ⟨_, by rw [hstep, hbody], ?_, ?_⟩
    · rw [hload, setC_ready, setC_ready, cancelPending_ready]
    · refine ⟨{ c with aborted := false, thumbnailSrc := some u, loading := false
                       failed := false, requestId := c.requestId + 1
                       controller := none, retryTimer := none },
        ?_, rfl, rfl, rfl, rfl, hsrc, ?_⟩
      · rw [hload]
        simp only [setC]
        exact List.getElem?_set_self (by simp [cancelPending_consumers_length]; omega)
      · rw [if_pos hmem]
        refine ⟨rfl, rfl, ?_, ?_⟩
        · rw [hload, setC_sem, setC_sem, cancelPending_sem]
        · rw [hload, setC_tasks, setC_tasks]
  · obtain ⟨hr, hg, htw⟩ := loadEntry_miss cfg _ cid _ u 0 (c.requestId + 1) hget2 rfl rfl
      (by rw [setC_ready, cancelPending_ready]; exact hmem)
    refine ⟨_, by rw [hstep, hbody], ?_, ?_⟩
    · rw [hr, setC_ready, cancelPending_ready]
    · refine ⟨{ c with aborted := false, thumbnailSrc := none, loading := true
                       failed := false, requestId := c.requestId + 1
                       controller := none, retryTimer := none },
        hg, rfl, rfl, rfl, rfl, hsrc, ?_⟩
      · rw [if_neg hmem]
        exact ⟨rfl, rfl, htw⟩

/-- Witness for c6_retry_restart at a concrete ready-cached state. -/
theorem c6_retry_restart_witness :
    ∃ s', stepA fetchRetryConfig (.retry 0) sampleReadyState = some s' ∧
      s'.ready = sampleReadyState.ready ∧
      ∃ c', s'.consumers[0]? = some c' ∧
        c'.aborted = false ∧ c'.failed = false ∧
        c'.requestId = sampleConsumer.requestId + 1 ∧ c'.retryTimer = none ∧
        c'.srcRef = some "u" ∧
        (if "u" ∈ sampleReadyState.ready then
          c'.thumbnailSrc = some "u" ∧ c'.loading = false ∧
          s'.sem = sampleReadyState.sem ∧
          s'.tasks = (cancelPending sampleReadyState 0).tasks
        else
          c'.thumbnailSrc = none ∧ c'.loading = true ∧
          ((∃ t' ∈ s'.tasks, t'.cid = 0 ∧ t'.src = "u" ∧ t'.attempt = 0 ∧
              t'.rid = sampleConsumer.requestId + 1 ∧ t'.phase = .acquired) ∨
           (∃ w ∈ s'.sem.queue, w.cid = 0 ∧ w.src = "u" ∧ w.attempt = 0 ∧
              w.rid = sampleConsumer.requestId + 1))) :=
  c6_retry_restart fetchRetryConfig sampleReadyState 0 sampleConsumer "u"
    rfl rfl rfl rfl
